import Mathlib

/-!
Verification of the core simulation of the "phages vs bacteria" Phaser game.

The definitions below are a shallow embedding of the repository's source:
  * `src/systems/geometry.js`   — `randomPointInDish`, `clampToDishPoint`
  * `src/systems/behaviors.js`  — `bacteriaDrift`, `helperBrain`
  * `src/scenes/GameScene.js`   — the game scene: `update`, `tryAttachAt`,
    `startInjecting`, `stopInjecting`, `lysis`, `spawnBacterium`,
    `spawnBacteriumNearExisting`, `spawnHelperPhageNear`, `constrainToDish`,
    `endGame`, and the reproduction-timer callback set up in `create`
  * `src/config.js`             — `W`, `H`, `GAME_SETTINGS`

Numbers are modelled as exact reals.  JavaScript `Math.random()` draws are
modelled as explicit oracle parameters (records of draw values); theorems
quantify over all draws.  Purely cosmetic effects (tweens, particles, text,
rotation of sprites, music) are presentation-layer and are not part of the
state, matching the spec's scope section.  Phaser's arcade-physics position
integration runs outside `update` and is likewise not part of the embedded
tick.

Phaser built-ins used by the source are embedded from their Phaser 3
implementations: `Vector2.normalize` leaves the zero vector unchanged,
`Vector2.setLength l v = scale l (normalize v)`, `Math.Clamp(v, lo, hi) =
max lo (min hi v)`, `FloatBetween(a, b) = random() * (b - a) + a`,
`Distance.Between / Squared` are the Euclidean distance and its square.
-/

open Classical

noncomputable section

/-! ## Vector2 (Phaser.Math.Vector2) -/

/-- A 2-D vector `(x, y)`. -/
abbrev V2 : Type := ℝ × ℝ

def vadd (a b : V2) : V2 := (a.1 + b.1, a.2 + b.2)

def vsub (a b : V2) : V2 := (a.1 - b.1, a.2 - b.2)

def vscale (c : ℝ) (v : V2) : V2 := (c * v.1, c * v.2)

def vdot (a b : V2) : ℝ := a.1 * b.1 + a.2 * b.2

/-- `Vector2.lengthSq`: `x*x + y*y`. -/
def vlen2 (v : V2) : ℝ := v.1 ^ 2 + v.2 ^ 2

/-- `Vector2.length`: `Math.sqrt (x*x + y*y)`. -/
def vlen (v : V2) : ℝ := Real.sqrt (vlen2 v)

/-- `Vector2.normalize`: scales to unit length, leaving the zero vector
unchanged (Phaser only rescales when `x*x + y*y > 0`). -/
def vnormalize (v : V2) : V2 := if 0 < vlen2 v then vscale (1 / vlen v) v else v

/-- `Vector2.setLength l`: `normalize().scale(l)`. -/
def vsetLength (l : ℝ) (v : V2) : V2 := vscale l (vnormalize v)

/-- `Phaser.Math.Distance.Squared`. -/
def distSquared (x1 y1 x2 y2 : ℝ) : ℝ := (x1 - x2) ^ 2 + (y1 - y2) ^ 2

/-- `Phaser.Math.Distance.Between`. -/
def distBetween (x1 y1 x2 y2 : ℝ) : ℝ := Real.sqrt (distSquared x1 y1 x2 y2)

/-- `Phaser.Math.Clamp(value, min, max) = Math.max(min, Math.min(max, value))`. -/
def clampR (v lo hi : ℝ) : ℝ := max lo (min hi v)

/-- `Phaser.Math.FloatBetween(a, b) = Math.random() * (b - a) + a`,
with the uniform draw `u` passed explicitly. -/
def floatBetween (a b u : ℝ) : ℝ := u * (b - a) + a

/-! ## Configuration (src/config.js) -/

def Wconf : ℝ := 960

def Hconf : ℝ := 540

def neededToWin : ℕ := 35

def loseThreshold : ℕ := 55

def maxHelpers : ℕ := 6

def killerHelperChance : ℝ := 0.90

def killerLysisChancePerSec : ℝ := 0.35

def baseInjectDuration : ℝ := 750

def attachRange : ℝ := 92

/-- `this.center = new Vector2(W / 2, H / 2)` in `GameScene.create`. -/
def dishCenter : V2 := (Wconf / 2, Hconf / 2)

/-- `this.dishRadius = Math.min(W, H) * 0.44`. -/
def dishRadius : ℝ := min Wconf Hconf * 0.44

/-- The reflective boundary radius used by `constrainToDish`:
`this.dishRadius * 0.93`. -/
def maxR : ℝ := dishRadius * 0.93

/-- Distance of a point from the dish center (`Distance.Between` against
`this.center`). -/
def distToCenter (p : V2) : ℝ := distBetween p.1 p.2 dishCenter.1 dishCenter.2

/-! ## Entities and game state -/

/-- A bacterium sprite: position, velocity, Phaser `active` flag and the
`"infected"` data key. -/
structure Bacterium where
  pos : V2
  vel : V2
  active : Bool
  infected : Bool

instance : Inhabited Bacterium := ⟨⟨(0, 0), (0, 0), false, false⟩⟩

/-- A helper phage sprite: position, velocity, the acceleration most recently
set by `setAcceleration`, Phaser `active` flag, and the `"killer"`,
`"cooldown"`, `"wanderAngle"` data keys. -/
structure Helper where
  pos : V2
  vel : V2
  accel : V2
  active : Bool
  killer : Bool
  cooldown : ℝ
  wanderAngle : ℝ

/-- The mutable state of `GameScene` that the simulation reads and writes.
`attachedTarget` stores the index of the referenced bacterium in `bacteria`
(the source stores the object reference).  `won` records which end banner
`endGame` displayed (`none` while the session is running). -/
structure GameState where
  playerPos : V2
  playerVel : V2
  playerAccel : V2
  bacteria : List Bacterium
  helpers : List Helper
  score : ℕ
  gameOver : Bool
  won : Option Bool
  tutorialActive : Bool
  injecting : Bool
  attachedTarget : Option ℕ
  injectStartTime : ℝ
  injectDuration : ℝ
  elapsedSeconds : ℝ

/-- `this.bacteria.countActive(true)`. -/
def countActive (s : GameState) : ℕ := (s.bacteria.filter (fun b => b.active)).length

/-- `this.helpers.countActive(true)`. -/
def helpersActive (s : GameState) : ℕ := (s.helpers.filter (fun h => h.active)).length

/-! ## Random-draw oracles -/

/-- Draws consumed by one `spawnHelperPhageNear` call: the `FloatBetween`
draws for the offset angle and radius and the wander angle, and the
`Math.random()` draw deciding the killer role.  (Scale and alpha are
cosmetic.) -/
structure SpawnHRand where
  angleU : ℝ
  rU : ℝ
  wanderU : ℝ
  killerU : ℝ

/-- Draws consumed by one bacterium spawn.  `parentU` picks the parent via
`Phaser.Utils.Array.GetRandom`; `angleU`/`rU` are the offset draws;
`tU`/`uA`/`uB` are the `randomPointInDish` draws used on the fallback path;
`vx`/`vy` are the resulting `Phaser.Math.Between` initial velocity
components. -/
structure BactSpawnRand where
  parentU : ℝ
  angleU : ℝ
  rU : ℝ
  tU : ℝ
  uA : ℝ
  uB : ℝ
  vx : ℝ
  vy : ℝ

/-- Draws consumed by one `bacteriaDrift` call (one `FloatBetween` per
axis). -/
structure BactRand where
  jxU : ℝ
  jyU : ℝ

/-- Draws consumed by one `helperBrain` call: the wander `FloatBetween`
draw, the strike `Math.random()` draw, and the spawn draws for the up to two
helpers created if the strike lyses its target. -/
structure HelperRand where
  wanderU : ℝ
  strikeU : ℝ
  sp1 : SpawnHRand
  sp2 : SpawnHRand

/-! ## src/systems/geometry.js -/

/-- `randomPointInDish(center, radius)`: `t = random()*π*2`,
`u = random() + random()`, `r = u > 1 ? 2 - u : u`, point
`center + (cos t * r * radius, sin t * r * radius)`. -/
def randomPointInDish (center : V2) (radius : ℝ) (tU uA uB : ℝ) : V2 :=
  let t := tU * Real.pi * 2
  let u := uA + uB
  let r := if 1 < u then 2 - u else u
  (center.1 + Real.cos t * r * radius, center.2 + Real.sin t * r * radius)

/-- `clampToDishPoint(center, radius, pointVec)`. -/
def clampToDishPoint (center : V2) (radius : ℝ) (p : V2) : V2 :=
  let toC := vsub p center
  if vlen toC ≤ radius then p
  else vadd center (vsetLength radius toC)

/-! ## Spawning (GameScene) -/

/-- `GameScene.spawnBacterium`: place at `randomPointInDish(center,
dishRadius * 0.92)` with a random initial velocity.  Appends one active,
non-infected bacterium. -/
def spawnBacterium (s : GameState) (d : BactSpawnRand) : GameState :=
  let p := randomPointInDish dishCenter (dishRadius * 0.92) d.tU d.uA d.uB
  { s with bacteria :=
      s.bacteria ++ [{ pos := p, vel := (d.vx, d.vy), active := true, infected := false }] }

/-- `GameScene.spawnBacteriumNearExisting`: pick a random active bacterium,
offset by a random angle and radius in `[18, 44]`, clamp the point into
`dishRadius * 0.92`, and append the new bacterium; falls back to
`spawnBacterium` when no active bacterium exists.  (`GetRandom` draws an
in-range index `⌊u * len⌋`; the `getD` default is unreachable for draws in
`[0, 1)`.) -/
def spawnBacteriumNearExisting (s : GameState) (d : BactSpawnRand) : GameState :=
  let list := s.bacteria.filter (fun b => b.active)
  if list.length = 0 then spawnBacterium s d
  else
    let parent := list.getD (⌊d.parentU * (list.length : ℝ)⌋.toNat) default
    let angle := floatBetween 0 (Real.pi * 2) d.angleU
    let r := floatBetween 18 44 d.rU
    let p : V2 := (parent.pos.1 + Real.cos angle * r, parent.pos.2 + Real.sin angle * r)
    let clamped := clampToDishPoint dishCenter (dishRadius * 0.92) p
    { s with bacteria :=
        s.bacteria ++ [{ pos := clamped, vel := (d.vx, d.vy), active := true, infected := false }] }

/-- `GameScene.spawnHelperPhageNear(x, y)`: offset by a random angle and
radius in `[10, 30]` (no dish clamping), killer role drawn Bernoulli with
`killerHelperChance`, cooldown 0, random wander angle. -/
def spawnHelperPhageNear (s : GameState) (x y : ℝ) (d : SpawnHRand) : GameState :=
  let angle := floatBetween 0 (Real.pi * 2) d.angleU
  let r := floatBetween 10 30 d.rU
  let p : V2 := (x + Real.cos angle * r, y + Real.sin angle * r)
  let isKiller : Bool := decide (d.killerU < killerHelperChance)
  { s with helpers :=
      s.helpers ++ [{ pos := p, vel := (0, 0), accel := (0, 0), active := true,
                      killer := isKiller, cooldown := 0,
                      wanderAngle := floatBetween 0 (Real.pi * 2) d.wanderU }] }

/-! ## Lysis (GameScene.lysis) -/

/-- `GameScene.lysis(b)`: no-op when `b` is null (index out of range) or
inactive; otherwise deactivate `b`, increment the score, and spawn up to two
helpers near `b`'s last position, breaking out of the loop once
`helpers.countActive(true) >= maxHelpers`. -/
def lysis (s : GameState) (ti : ℕ) (d1 d2 : SpawnHRand) : GameState :=
  match s.bacteria[ti]? with
  | none => s
  | some b =>
    if b.active = false then s
    else
      let s1 := { s with bacteria := s.bacteria.set ti { b with active := false },
                         score := s.score + 1 }
      let s2 := if maxHelpers ≤ helpersActive s1 then s1
                else spawnHelperPhageNear s1 b.pos.1 b.pos.2 d1
      let s3 := if maxHelpers ≤ helpersActive s2 then s2
                else spawnHelperPhageNear s2 b.pos.1 b.pos.2 d2
      s3

/-! ## src/systems/behaviors.js -/

/-- `bacteriaDrift(scene, b, dt)`: per-axis random jitter scaled by `dt`,
clamped to `±85` (`±45` when infected).  Sprite rotation is cosmetic and not
modelled. -/
def bacteriaDrift (b : Bacterium) (dt : ℝ) (r : BactRand) : Bacterium :=
  let infected := b.infected
  let mx : ℝ := if infected then 45 else 85
  let jitter : ℝ := if infected then 10 else 18
  { b with vel :=
      (clampR (b.vel.1 + floatBetween (-jitter) jitter r.jxU * dt) (-mx) mx,
       clampR (b.vel.2 + floatBetween (-jitter) jitter r.jyU * dt) (-mx) mx) }

/-- The target scan at the top of `helperBrain`: `target = null`,
`bestD2 = 999999`, then for each bacterium in iteration order skip it if
inactive or infected, else take it when its squared distance is strictly
below the best so far.  The accumulator stores the object reference (index
and record) exactly as the source stores `target = b`. -/
def helperScanAux (x y : ℝ) : List Bacterium → ℕ → Option (ℕ × Bacterium) × ℝ →
    Option (ℕ × Bacterium) × ℝ
  | [], _, acc => acc
  | b :: rest, i, acc =>
    let acc' :=
      if b.active = true ∧ b.infected = false then
        let d2 := distSquared x y b.pos.1 b.pos.2
        if d2 < acc.2 then (some (i, b), d2) else acc
      else acc
    helperScanAux x y rest (i + 1) acc'

def helperScan (x y : ℝ) (bs : List Bacterium) : Option (ℕ × Bacterium) × ℝ :=
  helperScanAux x y bs 0 (none, 999999)

/-- `helperBrain(scene, h, dt)`.  Updates the helper's cooldown,
acceleration and wander angle; a killer helper whose (decremented) cooldown
is `≤ 0` and whose scanned target is closer than `34²` strikes with
probability `clamp(killerLysisChancePerSec * dt, 0, 1)`: lysis on the
target, cooldown `1.5`, recoil velocity `220` away from the target.  Sprite
rotation is cosmetic and not modelled. -/
def helperBrain (s : GameState) (hi : ℕ) (dt : ℝ) (r : HelperRand) : GameState :=
  match s.helpers[hi]? with
  | none => s
  | some h =>
    let scan := helperScan h.pos.1 h.pos.2 s.bacteria
    let isKiller := h.killer
    let cooldown := max 0 (h.cooldown - dt)
    -- movement: seek + orbit, else wander
    let h1 : Helper :=
      match scan.1 with
      | some (_, tb) =>
        if scan.2 < 320 * 320 then
          let toT := vscale 260 (vnormalize (vsub tb.pos h.pos))
          let acc := if scan.2 < 70 * 70 then
              vscale 160 (vnormalize (-(tb.pos.2 - h.pos.2), tb.pos.1 - h.pos.1))
            else toT
          { h with cooldown := cooldown, accel := acc }
        else
          let a := h.wanderAngle + floatBetween (-0.9) 0.9 r.wanderU * dt
          { h with cooldown := cooldown, wanderAngle := a,
                   accel := vscale 160 (Real.cos a, Real.sin a) }
      | none =>
        let a := h.wanderAngle + floatBetween (-0.9) 0.9 r.wanderU * dt
        { h with cooldown := cooldown, wanderAngle := a,
                 accel := vscale 160 (Real.cos a, Real.sin a) }
    -- killer strike
    match scan.1 with
    | some (ti, tb) =>
      if isKiller = true ∧ cooldown ≤ 0 ∧ scan.2 < 34 * 34 then
        let p := clampR (killerLysisChancePerSec * dt) 0 1
        if r.strikeU < p then
          let s1 := lysis s ti r.sp1 r.sp2
          let h2 := { h1 with cooldown := 1.5,
                              vel := vscale 220 (vnormalize (vsub h.pos tb.pos)) }
          { s1 with helpers := s1.helpers.set hi h2 }
        else { s with helpers := s.helpers.set hi h1 }
      else { s with helpers := s.helpers.set hi h1 }
    | none => { s with helpers := s.helpers.set hi h1 }

/-! ## Injection (GameScene.tryAttachAt / startInjecting / stopInjecting) -/

/-- The nearest-bacterium scan of `tryAttachAt`: `best = null`,
`bestD2 = Infinity`; skip inactive bacteria; strict `<` comparison so the
first bacterium found in iteration order wins ties.  `none` as accumulator
encodes `bestD2 = Infinity` (every finite squared distance beats it). -/
def tryScanAux (x y : ℝ) : List Bacterium → ℕ → Option (ℕ × Bacterium × ℝ) →
    Option (ℕ × Bacterium × ℝ)
  | [], _, acc => acc
  | b :: rest, i, acc =>
    let acc' :=
      if b.active = false then acc
      else
        let d2 := distSquared x y b.pos.1 b.pos.2
        match acc with
        | none => some (i, b, d2)
        | some (_, _, bd) => if d2 < bd then some (i, b, d2) else acc
    tryScanAux x y rest (i + 1) acc'

def tryScan (x y : ℝ) (bs : List Bacterium) : Option (ℕ × Bacterium × ℝ) :=
  tryScanAux x y bs 0 none

/-- `GameScene.startInjecting(bacterium)`: guard on the target being
non-null and active; set the injection session fields, compute the duration
from the current population, and mark the target infected. -/
def startInjecting (s : GameState) (ti : ℕ) (now : ℝ) : GameState :=
  match s.bacteria[ti]? with
  | none => s
  | some b =>
    if b.active = false then s
    else
      { s with attachedTarget := some ti,
               injecting := true,
               injectDuration := baseInjectDuration + min 900 ((countActive s : ℝ) * 18),
               injectStartTime := now,
               bacteria := s.bacteria.set ti { b with infected := true } }

/-- `GameScene.stopInjecting`: clear the injection session and unmark the
target's infected flag. -/
def stopInjecting (s : GameState) : GameState :=
  let bacteria' :=
    match s.attachedTarget with
    | some i =>
      match s.bacteria[i]? with
      | some b => s.bacteria.set i { b with infected := false }
      | none => s.bacteria
    | none => s.bacteria
  { s with injecting := false, bacteria := bacteria', attachedTarget := none }

/-- `GameScene.tryAttachAt(x, y)`: no-op while injecting; find the nearest
active bacterium to the pick point; no-op when none exists or when the
player is farther than `attachRange` from it (the reject tween is
cosmetic); otherwise start injecting it. -/
def tryAttachAt (s : GameState) (x y now : ℝ) : GameState :=
  if s.injecting = true then s
  else
    match tryScan x y s.bacteria with
    | none => s
    | some (ti, b, _) =>
      let distToPlayer := distBetween s.playerPos.1 s.playerPos.2 b.pos.1 b.pos.2
      if attachRange < distToPlayer then s
      else startInjecting s ti now

/-! ## Session end (GameScene.endGame) and the per-tick phases -/

/-- `GameScene.endGame(won)`: set `gameOver`, stop any in-progress
injection, and show the end banner (recorded in `won`; the banner, music
fade and restart button are cosmetic). -/
def endGame (s : GameState) (w : Bool) : GameState :=
  stopInjecting { s with gameOver := true, won := some w }

/-- The win/lose evaluation at the end of `GameScene.update`:
`score >= neededToWin` ends the session as a win, else
`countActive >= loseThreshold` ends it as a loss. -/
def checkEnd (s : GameState) : GameState :=
  if neededToWin ≤ s.score then endGame s true
  else if loseThreshold ≤ countActive s then endGame s false
  else s

/-- Keyboard state read by `handleMovement`. -/
structure InputState where
  left : Bool
  right : Bool
  up : Bool
  down : Bool

/-- `GameScene.handleMovement(dt)`: no-op while injecting; otherwise set the
player's acceleration to the normalized input direction scaled by 520.
(`dt` is only used for the cosmetic rotation easing.) -/
def handleMovement (s : GameState) (inp : InputState) : GameState :=
  if s.injecting = true then s
  else
    let ax : ℝ := (if inp.left then -1 else 0) + (if inp.right then 1 else 0)
    let ay : ℝ := (if inp.up then -1 else 0) + (if inp.down then 1 else 0)
    let v : V2 := (ax, ay)
    let v' := if 0 < vlen2 v then vscale 520 (vnormalize v) else v
    { s with playerAccel := v' }

/-- `GameScene.constrainToDish(sprite)`: when the sprite is farther than
`dishRadius * 0.93` from the center, clamp its position to that radius and
reflect its velocity across the outward normal, scaled by `0.65`.  Returns
the new `(position, velocity)`. -/
def constrainToDish (pos vel : V2) : V2 × V2 :=
  let toC := vsub pos dishCenter
  if maxR < vlen toC then
    let to' := vsetLength maxR toC
    let newPos := vadd dishCenter to'
    let n := vnormalize to'
    let dot := vel.1 * n.1 + vel.2 * n.2
    let vx := vel.1 - 2 * dot * n.1
    let vy := vel.2 - 2 * dot * n.2
    (newPos, (vx * 0.65, vy * 0.65))
  else (pos, vel)

/-- The player part of `update`: `handleMovement` then
`constrainToDish(player)`. -/
def playerPhase (s : GameState) (inp : InputState) : GameState :=
  let s1 := handleMovement s inp
  let c := constrainToDish s1.playerPos s1.playerVel
  { s1 with playerPos := c.1, playerVel := c.2 }

/-- The helpers loop of `update`: for each helper active at its turn, run
`helperBrain` then `constrainToDish`.  The iteration length is the
helper-count at the start of the loop (Phaser's `Set.iterate` caches the
length, so helpers appended mid-loop by a strike's lysis are not visited
this tick). -/
def helpersPhase (s : GameState) (dt : ℝ) (rng : ℕ → HelperRand) : GameState :=
  (List.range s.helpers.length).foldl (fun st i =>
    match st.helpers[i]? with
    | none => st
    | some h =>
      if h.active = false then st
      else
        let st1 := helperBrain st i dt (rng i)
        match st1.helpers[i]? with
        | none => st1
        | some h1 =>
          let c := constrainToDish h1.pos h1.vel
          { st1 with helpers := st1.helpers.set i { h1 with pos := c.1, vel := c.2 } }) s

/-- The bacteria loop of `update`: for each active bacterium, run
`bacteriaDrift` then `constrainToDish`. -/
def bacteriaPhase (s : GameState) (dt : ℝ) (rng : ℕ → BactRand) : GameState :=
  (List.range s.bacteria.length).foldl (fun st i =>
    match st.bacteria[i]? with
    | none => st
    | some b =>
      if b.active = false then st
      else
        let b1 := bacteriaDrift b dt (rng i)
        let c := constrainToDish b1.pos b1.vel
        { st with bacteria := st.bacteria.set i { b1 with pos := c.1, vel := c.2 } }) s

/-- The injection block of `update`: while injecting on an active target,
pin the player to the target and compute progress
`p = clamp((t - start) / duration, 0, 1)`; at `p >= 1` lyse the target and
stop; if injecting but the target is gone or inactive, stop.  (The ring and
fill images are cosmetic.) -/
def injectionPhase (s : GameState) (t : ℝ) (d1 d2 : SpawnHRand) : GameState :=
  if s.injecting = true then
    match s.attachedTarget with
    | some i =>
      match s.bacteria[i]? with
      | some b =>
        if b.active = true then
          let elapsed := t - s.injectStartTime
          let p := clampR (elapsed / s.injectDuration) 0 1
          let s1 := { s with playerVel := (0, 0), playerPos := b.pos }
          if 1 ≤ p then stopInjecting (lysis s1 i d1 d2) else s1
        else stopInjecting s
      | none => stopInjecting s
    | none => stopInjecting s
  else s

/-- `GameScene.update(t, dtMs)`: early-out during the tutorial or after game
over; advance `elapsedSeconds`; run the player, helpers, bacteria and
injection phases; then evaluate the win/lose conditions.  (The HUD text is
cosmetic.) -/
def updateSim (s : GameState) (t dtMs : ℝ) (inp : InputState)
    (rngH : ℕ → HelperRand) (rngB : ℕ → BactRand) (d1 d2 : SpawnHRand) : GameState :=
  if s.tutorialActive = true then s
  else if s.gameOver = true then s
  else
    let dt := dtMs / 1000
    let s1 := { s with elapsedSeconds := s.elapsedSeconds + dtMs / 1000 }
    let s2 := playerPhase s1 inp
    let s3 := helpersPhase s2 dt rngH
    let s4 := bacteriaPhase s3 dt rngB
    let s5 := injectionPhase s4 t d1 d2
    checkEnd s5

/-! ## Reproduction timer (the `reproEvent` callback in GameScene.create) -/

/-- One fire of the 1-second reproduction timer: skipped while game over or
during the tutorial; reads `n = countActive` once; computes the time and
population ramps; makes `2 + floor(timeRamp + popRamp)` attempts, each
spawning near an existing bacterium when its uniform draw is below the
clamped chance and `n < 110`. -/
def reproStep (s : GameState) (chanceU : ℕ → ℝ) (spawnD : ℕ → BactSpawnRand) : GameState :=
  if s.gameOver = true ∨ s.tutorialActive = true then s
  else
    let n := countActive s
    let timeRamp := clampR (s.elapsedSeconds / 40) 0 2.2
    let popRamp := clampR ((n : ℝ) / 22) 0 2.0
    let attempts := 2 + (⌊timeRamp + popRamp⌋).toNat
    (List.range attempts).foldl (fun st i =>
      let chance := clampR (0.30 + 0.16 * timeRamp + 0.14 * popRamp) 0.30 0.92
      if chanceU i < chance ∧ n < 110 then spawnBacteriumNearExisting st (spawnD i)
      else st) s

/-- Reflection of `v` across the plane with unit normal `n`
(`v - 2 (v ⬝ n) n`), the specification-side description of the bounce in
`constrainToDish`. -/
def reflect (v n : V2) : V2 := vsub v (vscale (2 * vdot v n) n)

/-! ## Concrete states used to exercise the definitions -/

/-- An all-zero helper-spawn draw record. -/
def zeroSpawnH : SpawnHRand := ⟨0, 0, 0, 0⟩

/-- An active, non-infected bacterium at rest at `p`. -/
def bactAt (p : V2) : Bacterium :=
  { pos := p, vel := (0, 0), active := true, infected := false }

/-- An active helper at rest at `p` with killer role `k` and zero
cooldown. -/
def helperAt (p : V2) (k : Bool) : Helper :=
  { pos := p, vel := (0, 0), accel := (0, 0), active := true, killer := k,
    cooldown := 0, wanderAngle := 0 }

/-- A fresh session state with no bacteria or helpers: the player at the
dish center, score 0, not injecting, tutorial dismissed. -/
def baseState : GameState :=
  { playerPos := dishCenter, playerVel := (0, 0), playerAccel := (0, 0),
    bacteria := [], helpers := [], score := 0, gameOver := false, won := none,
    tutorialActive := false, injecting := false, attachedTarget := none,
    injectStartTime := 0, injectDuration := baseInjectDuration, elapsedSeconds := 0 }

end

/-! ## Vector lemmas -/

lemma vlen2_nonneg (v : V2) : 0 ≤ vlen2 v := by
  have h1 : (0:ℝ) ≤ v.1 ^ 2 := sq_nonneg _
  have h2 : (0:ℝ) ≤ v.2 ^ 2 := sq_nonneg _
  simpa [vlen2] using add_nonneg h1 h2

lemma vlen_nonneg (v : V2) : 0 ≤ vlen v := Real.sqrt_nonneg _

lemma vlen_eq_of_sq {v : V2} {c : ℝ} (h : vlen2 v = c ^ 2) (hc : 0 ≤ c) :
    vlen v = c := by
  rw [vlen, h, Real.sqrt_sq hc]

lemma vlen2_pos_of_vlen_pos {v : V2} (h : 0 < vlen v) : 0 < vlen2 v :=
  Real.sqrt_pos.mp h

lemma vlen_pos_of_vlen2_pos {v : V2} (h : 0 < vlen2 v) : 0 < vlen v :=
  Real.sqrt_pos.mpr h

lemma sq_vlen (v : V2) : vlen v ^ 2 = vlen2 v :=
  Real.sq_sqrt (vlen2_nonneg v)

lemma vscale_vscale (a b : ℝ) (v : V2) : vscale a (vscale b v) = vscale (a * b) v := by
  simp only [vscale]
  exact Prod.ext (by ring) (by ring)

lemma vlen2_vscale (c : ℝ) (v : V2) : vlen2 (vscale c v) = c ^ 2 * vlen2 v := by
  simp only [vscale, vlen2]
  ring

lemma vlen_vscale (c : ℝ) (v : V2) : vlen (vscale c v) = |c| * vlen v := by
  rw [vlen, vlen2_vscale, Real.sqrt_mul (sq_nonneg c), Real.sqrt_sq_eq_abs, vlen]

lemma vnormalize_eq {v : V2} (h : 0 < vlen2 v) :
    vnormalize v = vscale (1 / vlen v) v := by
  rw [vnormalize, if_pos h]

lemma vlen_vnormalize {v : V2} (h : 0 < vlen2 v) : vlen (vnormalize v) = 1 := by
  have hl : 0 < vlen v := vlen_pos_of_vlen2_pos h
  rw [vnormalize_eq h, vlen_vscale, abs_of_pos (by positivity), one_div,
    inv_mul_cancel₀ (ne_of_gt hl)]

lemma vsetLength_eq {v : V2} (l : ℝ) (h : 0 < vlen2 v) :
    vsetLength l v = vscale (l / vlen v) v := by
  rw [vsetLength, vnormalize_eq h, vscale_vscale]
  congr 1
  field_simp

lemma vsub_vadd_cancel (c w : V2) : vsub (vadd c w) c = w := by
  simp only [vsub, vadd]
  exact Prod.ext (by ring) (by ring)

lemma distToCenter_eq_vlen (p : V2) : distToCenter p = vlen (vsub p dishCenter) := by
  simp only [distToCenter, distBetween, distSquared, vlen, vlen2, vsub]

lemma maxR_pos : 0 < maxR := by
  rw [maxR, dishRadius, Wconf, Hconf]
  norm_num

lemma dishRadius_val : dishRadius = 237.6 := by
  rw [dishRadius, Wconf, Hconf]
  norm_num

/-! ## constrainToDish lemmas (claim C1) -/

lemma constrainToDish_of_le {pos vel : V2} (h : ¬ maxR < vlen (vsub pos dishCenter)) :
    constrainToDish pos vel = (pos, vel) := by
  rw [constrainToDish]
  simp only [if_neg h]

lemma constrainToDish_of_lt {pos vel : V2} (h : maxR < vlen (vsub pos dishCenter)) :
    constrainToDish pos vel =
      (vadd dishCenter (vscale (maxR / vlen (vsub pos dishCenter)) (vsub pos dishCenter)),
       vscale 0.65 (reflect vel
         (vscale (1 / vlen (vsub pos dishCenter)) (vsub pos dishCenter)))) := by
  set w := vsub pos dishCenter with hw
  have hL : 0 < vlen w := lt_trans maxR_pos h
  have hL2 : 0 < vlen2 w := vlen2_pos_of_vlen_pos hL
  have hset : vsetLength maxR w = vscale (maxR / vlen w) w := vsetLength_eq maxR hL2
  have hlen' : vlen (vsetLength maxR w) = maxR := by
    rw [hset, vlen_vscale, abs_of_pos (div_pos maxR_pos hL), div_mul_cancel₀]
    exact ne_of_gt hL
  have hlen2' : 0 < vlen2 (vsetLength maxR w) := by
    apply vlen2_pos_of_vlen_pos
    rw [hlen']
    exact maxR_pos
  have hnorm : vnormalize (vsetLength maxR w) = vscale (1 / vlen w) w := by
    rw [vnormalize_eq hlen2', hlen', hset, vscale_vscale]
    congr 1
    field_simp
    exact div_self (ne_of_gt (mul_pos maxR_pos hL))
  rw [constrainToDish]
  simp only [← hw, if_pos h]
  rw [hnorm, hset]
  refine Prod.ext rfl ?_
  simp only [reflect, vscale, vsub, vdot]
  exact Prod.ext (by ring) (by ring)

/-- **C1.**  For every simulation tick and every entity the tick constrains
(the player, each active helper, each active bacterium — `update` calls
`constrainToDish` on each of them), the position returned by
`constrainToDish` is at distance at most `dishRadius * 0.93` from the dish
center; and whenever the distance before the call exceeds that bound, the
position is clamped to exactly that distance along the radial direction and
the velocity is replaced by its reflection across the outward unit normal,
scaled by `0.65`. -/
theorem constrainToDish_boundary_and_bounce (pos vel : V2) :
    distToCenter (constrainToDish pos vel).1 ≤ maxR ∧
    (maxR < distToCenter pos →
      (constrainToDish pos vel).1 =
        vadd dishCenter (vscale (maxR / distToCenter pos) (vsub pos dishCenter)) ∧
      distToCenter (constrainToDish pos vel).1 = maxR ∧
      (constrainToDish pos vel).2 =
        vscale 0.65 (reflect vel (vscale (1 / distToCenter pos) (vsub pos dishCenter)))) := by
  rw [distToCenter_eq_vlen pos]
  by_cases h : maxR < vlen (vsub pos dishCenter)
  · have heq := @constrainToDish_of_lt pos vel h
    have hL : 0 < vlen (vsub pos dishCenter) := lt_trans maxR_pos h
    have hdist : distToCenter (constrainToDish pos vel).1 = maxR := by
      rw [heq, distToCenter_eq_vlen, vsub_vadd_cancel, vlen_vscale,
        abs_of_pos (div_pos maxR_pos hL), div_mul_cancel₀]
      exact ne_of_gt hL
    refine ⟨le_of_eq hdist, fun _ => ⟨?_, hdist, ?_⟩⟩
    · rw [heq]
    · rw [heq]
  · constructor
    · rw [constrainToDish_of_le h, distToCenter_eq_vlen]
      exact le_of_not_lt h
    · intro hc
      exact absurd hc h

/-- Witness for C1 at a concrete out-of-bounds entity: position
`(780, 270)` (distance 300 from the center `(480, 270)`), velocity
`(10, 0)`. -/
theorem constrainToDish_boundary_witness :
    maxR < distToCenter ((780 : ℝ), (270 : ℝ)) ∧
    distToCenter (constrainToDish ((780 : ℝ), (270 : ℝ)) ((10 : ℝ), (0 : ℝ))).1 = maxR := by
  have hd : distToCenter ((780 : ℝ), (270 : ℝ)) = 300 := by
    rw [distToCenter, distBetween, distSquared, dishCenter, Wconf, Hconf]
    rw [show ((780 : ℝ) - 960 / 2) ^ 2 + (270 - 540 / 2) ^ 2 = 300 ^ 2 by norm_num]
    exact Real.sqrt_sq (by norm_num)
  have hlt : maxR < distToCenter ((780 : ℝ), (270 : ℝ)) := by
    rw [hd, maxR, dishRadius_val]
    norm_num
  exact ⟨hlt, ((constrainToDish_boundary_and_bounce ((780 : ℝ), (270 : ℝ))
    ((10 : ℝ), (0 : ℝ))).2 hlt).2.1⟩

/-! ## List lemmas -/

lemma filter_length_set {α : Type} (p : α → Bool) :
    ∀ (l : List α) (i : ℕ) (a b : α), l[i]? = some a →
      ((l.set i b).filter p).length + (if p a then 1 else 0)
        = (l.filter p).length + (if p b then 1 else 0)
  | [], i, a, b, h => by simp at h
  | x :: xs, 0, a, b, h => by
    simp only [List.getElem?_cons_zero, Option.some.injEq] at h
    subst h
    simp only [List.set_cons_zero, List.filter_cons]
    by_cases hb : p b <;> by_cases hx : p x <;> simp [hb, hx] <;> omega
  | x :: xs, i + 1, a, b, h => by
    simp only [List.getElem?_cons_succ] at h
    have ih := filter_length_set p xs i a b h
    simp only [List.set_cons_succ, List.filter_cons]
    by_cases hx : p x <;> simp [hx] <;> omega

lemma filter_length_replicate_true {α : Type} (p : α → Bool) (a : α) (h : p a = true) :
    ∀ n, ((List.replicate n a).filter p).length = n
  | 0 => rfl
  | n + 1 => by
    simp only [List.replicate_succ, List.filter_cons, h, if_true, List.length_cons]
    rw [filter_length_replicate_true p a h n]

/-! ## Spawn lemmas -/

lemma spawnHelperPhageNear_helpers_length (s : GameState) (x y : ℝ) (d : SpawnHRand) :
    (spawnHelperPhageNear s x y d).helpers.length = s.helpers.length + 1 := by
  simp [spawnHelperPhageNear]

lemma spawnHelperPhageNear_helpersActive (s : GameState) (x y : ℝ) (d : SpawnHRand) :
    helpersActive (spawnHelperPhageNear s x y d) = helpersActive s + 1 := by
  simp [spawnHelperPhageNear, helpersActive, List.filter_append]

lemma spawnHelperPhageNear_bacteria (s : GameState) (x y : ℝ) (d : SpawnHRand) :
    (spawnHelperPhageNear s x y d).bacteria = s.bacteria := rfl

lemma spawnHelperPhageNear_score (s : GameState) (x y : ℝ) (d : SpawnHRand) :
    (spawnHelperPhageNear s x y d).score = s.score := rfl

/-! ## Lysis lemmas -/

lemma lysis_none {s : GameState} {ti : ℕ} {d1 d2 : SpawnHRand}
    (h : s.bacteria[ti]? = none) : lysis s ti d1 d2 = s := by
  simp only [lysis, h]

lemma lysis_inactive {s : GameState} {ti : ℕ} {d1 d2 : SpawnHRand} {b : Bacterium}
    (h : s.bacteria[ti]? = some b) (hb : b.active = false) :
    lysis s ti d1 d2 = s := by
  simp only [lysis, h, hb, if_pos]

lemma lysis_active_bacteria {s : GameState} {ti : ℕ} {d1 d2 : SpawnHRand} {b : Bacterium}
    (h : s.bacteria[ti]? = some b) (hb : b.active = true) :
    (lysis s ti d1 d2).bacteria = s.bacteria.set ti { b with active := false } := by
  simp only [lysis, h]
  rw [if_neg (show ¬ b.active = false by simp [hb])]
  split
  · rfl
  · split <;> rfl

lemma lysis_active_score {s : GameState} {ti : ℕ} {d1 d2 : SpawnHRand} {b : Bacterium}
    (h : s.bacteria[ti]? = some b) (hb : b.active = true) :
    (lysis s ti d1 d2).score = s.score + 1 := by
  simp only [lysis, h]
  rw [if_neg (show ¬ b.active = false by simp [hb])]
  split
  · rfl
  · split <;> rfl

lemma lysis_gameOver (s : GameState) (ti : ℕ) (d1 d2 : SpawnHRand) :
    (lysis s ti d1 d2).gameOver = s.gameOver := by
  simp only [lysis]
  split
  · rfl
  · split
    · rfl
    · split
      · rfl
      · split <;> rfl

lemma lysis_active_helpers_length {s : GameState} {ti : ℕ} {d1 d2 : SpawnHRand} {b : Bacterium}
    (h : s.bacteria[ti]? = some b) (hb : b.active = true) :
    (lysis s ti d1 d2).helpers.length
      = s.helpers.length + min 2 (maxHelpers - helpersActive s) := by
  simp only [lysis, h]
  rw [if_neg (show ¬ b.active = false by simp [hb])]
  simp only [helpersActive, spawnHelperPhageNear]
  split
  · simp_all
    try omega
  · split <;> simp_all [List.filter_append] <;> try omega

lemma lysis_active_helpersActive {s : GameState} {ti : ℕ} {d1 d2 : SpawnHRand} {b : Bacterium}
    (h : s.bacteria[ti]? = some b) (hb : b.active = true) :
    helpersActive (lysis s ti d1 d2)
      = helpersActive s + min 2 (maxHelpers - helpersActive s) := by
  simp only [lysis, h]
  rw [if_neg (show ¬ b.active = false by simp [hb])]
  simp only [helpersActive, spawnHelperPhageNear]
  split
  · simp_all
    try omega
  · split <;> simp_all [List.filter_append] <;> try omega

lemma lysis_active_countActive {s : GameState} {ti : ℕ} {d1 d2 : SpawnHRand} {b : Bacterium}
    (h : s.bacteria[ti]? = some b) (hb : b.active = true) :
    countActive (lysis s ti d1 d2) + 1 = countActive s := by
  have hbac := @lysis_active_bacteria s ti d1 d2 b h hb
  have hfl := filter_length_set (fun x => x.active) s.bacteria ti b { b with active := false } h
  simp [hb] at hfl
  unfold countActive
  rw [hbac]
  omega

/-- **C2.**  `lysis(b)` is a no-op when the target is null (no such
bacterium) or already inactive — in particular invoking it twice on the
same target has no additional effect; on an active target it deactivates
the bacterium, increments the score by exactly 1, and spawns up to 2
helpers near the bacterium's last position, skipping any spawn that would
push the active helper count above `maxHelpers`.  (Both the player's
injection completion and a striker helper invoke this same `lysis`
function — see `injectionPhase` and `helperBrain` — so the behaviour is
identical for both trigger sources.) -/
theorem lysis_contract (s : GameState) (ti : ℕ) (d1 d2 d1' d2' : SpawnHRand) :
    (s.bacteria[ti]? = none → lysis s ti d1 d2 = s) ∧
    (∀ b, s.bacteria[ti]? = some b → b.active = false → lysis s ti d1 d2 = s) ∧
    lysis (lysis s ti d1 d2) ti d1' d2' = lysis s ti d1 d2 ∧
    (∀ b, s.bacteria[ti]? = some b → b.active = true →
      (lysis s ti d1 d2).score = s.score + 1 ∧
      (lysis s ti d1 d2).bacteria[ti]? = some { b with active := false } ∧
      countActive (lysis s ti d1 d2) + 1 = countActive s ∧
      (lysis s ti d1 d2).helpers.length
        = s.helpers.length + min 2 (maxHelpers - helpersActive s) ∧
      helpersActive (lysis s ti d1 d2)
        = helpersActive s + min 2 (maxHelpers - helpersActive s)) := by
  refine ⟨fun h => lysis_none h, fun b h hb => lysis_inactive h hb, ?_, ?_⟩
  · rcases hc : s.bacteria[ti]? with _ | b
    · rw [lysis_none hc, lysis_none hc]
    · by_cases hb : b.active = true
      · have hset : (lysis s ti d1 d2).bacteria[ti]? = some { b with active := false } := by
          rw [lysis_active_bacteria hc hb]
          exact List.getElem?_set_eq_of_lt _ (List.getElem?_eq_some.mp hc).1
        exact lysis_inactive hset rfl
      · have hb' : b.active = false := by simpa using hb
        rw [lysis_inactive hc hb', lysis_inactive hc hb']
  · intro b h hb
    refine ⟨lysis_active_score h hb, ?_, lysis_active_countActive h hb,
      lysis_active_helpers_length h hb, lysis_active_helpersActive h hb⟩
    rw [lysis_active_bacteria h hb]
    exact List.getElem?_set_eq_of_lt _ (List.getElem?_eq_some.mp h).1

/-- Witness for C2: lysing the single active bacterium of a concrete state
increments the score from 0 to 1 and spawns `min 2 maxHelpers = 2`
helpers. -/
theorem lysis_contract_witness :
    (lysis { baseState with bacteria := [bactAt (480, 270)] } 0 zeroSpawnH zeroSpawnH).score
        = 0 + 1 ∧
    helpersActive (lysis { baseState with bacteria := [bactAt (480, 270)] } 0 zeroSpawnH zeroSpawnH)
        = 0 + min 2 (maxHelpers - 0) := by
  have h := (lysis_contract { baseState with bacteria := [bactAt (480, 270)] } 0
    zeroSpawnH zeroSpawnH zeroSpawnH zeroSpawnH).2.2.2 (bactAt (480, 270)) rfl rfl
  exact ⟨h.1, h.2.2.2.2⟩

/-! ## startInjecting / stopInjecting lemmas -/

lemma startInjecting_some {s : GameState} {ti : ℕ} {b : Bacterium} (now : ℝ)
    (h : s.bacteria[ti]? = some b) (hb : b.active = true) :
    startInjecting s ti now =
      { s with attachedTarget := some ti,
               injecting := true,
               injectDuration := baseInjectDuration + min 900 ((countActive s : ℝ) * 18),
               injectStartTime := now,
               bacteria := s.bacteria.set ti { b with infected := true } } := by
  simp only [startInjecting, h]
  rw [if_neg (show ¬ b.active = false by simp [hb])]

lemma stopInjecting_bacteria_some {s : GameState} {i : ℕ} {b : Bacterium}
    (ha : s.attachedTarget = some i) (h : s.bacteria[i]? = some b) :
    (stopInjecting s).bacteria = s.bacteria.set i { b with infected := false } := by
  simp only [stopInjecting, ha, h]

/-- **C5.**  The injection duration computed by `startInjecting` equals
`baseInjectDuration + min 900 (n * 18)` milliseconds with `n` the active
bacterium count at that moment; it is monotone in that count and bounded by
`baseInjectDuration + 900`. -/
theorem injectDuration_formula (s : GameState) (ti : ℕ) (now : ℝ) (b : Bacterium)
    (h : s.bacteria[ti]? = some b) (hb : b.active = true) :
    (startInjecting s ti now).injectDuration
        = baseInjectDuration + min 900 ((countActive s : ℝ) * 18) ∧
    (∀ (s2 : GameState) (t2 : ℕ) (n2 : ℝ) (b2 : Bacterium),
      s2.bacteria[t2]? = some b2 → b2.active = true → countActive s ≤ countActive s2 →
      (startInjecting s ti now).injectDuration ≤ (startInjecting s2 t2 n2).injectDuration) ∧
    (startInjecting s ti now).injectDuration ≤ baseInjectDuration + 900 := by
  have he := startInjecting_some now h hb
  refine ⟨by rw [he], ?_, ?_⟩
  · intro s2 t2 n2 b2 h2 hb2 hc
    rw [he, startInjecting_some n2 h2 hb2]
    dsimp only
    have hmul : ((countActive s : ℝ) * 18) ≤ ((countActive s2 : ℝ) * 18) :=
      mul_le_mul_of_nonneg_right (Nat.cast_le.mpr hc) (by norm_num)
    exact add_le_add_left (min_le_min le_rfl hmul) _
  · rw [he]
    dsimp only
    exact add_le_add_left (min_le_left _ _) _

/-- Witness for C5 at a concrete state with one active bacterium:
duration `750 + min 900 18`. -/
theorem injectDuration_formula_witness :
    (startInjecting { baseState with bacteria := [bactAt (480, 270)] } 0 5).injectDuration
        = baseInjectDuration
            + min 900 ((countActive { baseState with bacteria := [bactAt (480, 270)] } : ℝ) * 18) ∧
    (startInjecting { baseState with bacteria := [bactAt (480, 270)] } 0 5).injectDuration
        ≤ baseInjectDuration + 900 := by
  have h := injectDuration_formula { baseState with bacteria := [bactAt (480, 270)] } 0 5
    (bactAt (480, 270)) rfl rfl
  exact ⟨h.1, h.2.2⟩

/-- **C6.**  If, during an active injection, the target bacterium is
inactive, the tick's injection block clears the session: `injecting`
becomes false, the target reference is released, the infected mark is
removed, no lysis is performed (every bacterium keeps its activity) and the
score is unchanged. -/
theorem injection_abort (s : GameState) (t : ℝ) (d1 d2 : SpawnHRand) (i : ℕ) (b : Bacterium)
    (hinj : s.injecting = true) (ha : s.attachedTarget = some i)
    (h : s.bacteria[i]? = some b) (hb : b.active = false) :
    injectionPhase s t d1 d2 = stopInjecting s ∧
    (stopInjecting s).injecting = false ∧
    (stopInjecting s).attachedTarget = none ∧
    (stopInjecting s).bacteria[i]? = some { b with infected := false } ∧
    (stopInjecting s).score = s.score ∧
    (∀ (j : ℕ) (bj : Bacterium), s.bacteria[j]? = some bj →
      ∃ bj' : Bacterium,
        (stopInjecting s).bacteria[j]? = some bj' ∧ bj'.active = bj.active) := by
  have hbac := stopInjecting_bacteria_some ha h
  refine ⟨?_, rfl, rfl, ?_, rfl, ?_⟩
  · simp [injectionPhase, hinj, ha, h, hb]
  · rw [hbac]
    exact List.getElem?_set_eq_of_lt _ (List.getElem?_eq_some.mp h).1
  · intro j bj hj
    by_cases hij : i = j
    · subst hij
      have : bj = b := by rw [h] at hj; exact (Option.some.injEq _ _).mp hj.symm
      subst this
      refine ⟨{ bj with infected := false }, ?_, rfl⟩
      rw [hbac]
      exact List.getElem?_set_eq_of_lt _ (List.getElem?_eq_some.mp h).1
    · refine ⟨bj, ?_, rfl⟩
      rw [hbac, List.getElem?_set_ne hij]
      exact hj

/-- Witness for C6 at a concrete state injecting into an already-inactive
target. -/
theorem injection_abort_witness :
    injectionPhase
        { baseState with injecting := true, attachedTarget := some 0,
                         bacteria := [{ bactAt (480, 270) with active := false }] }
        0 zeroSpawnH zeroSpawnH
      = stopInjecting
        { baseState with injecting := true, attachedTarget := some 0,
                         bacteria := [{ bactAt (480, 270) with active := false }] } ∧
    (stopInjecting
        { baseState with injecting := true, attachedTarget := some 0,
                         bacteria := [{ bactAt (480, 270) with active := false }] }).score = 0 := by
  have h := injection_abort
    { baseState with injecting := true, attachedTarget := some 0,
                     bacteria := [{ bactAt (480, 270) with active := false }] }
    0 zeroSpawnH zeroSpawnH 0 { bactAt (480, 270) with active := false } rfl rfl rfl rfl
  exact ⟨h.1, h.2.2.2.2.1⟩

/-! ## Reproduction lemmas -/

lemma spawnBacterium_length (s : GameState) (d : BactSpawnRand) :
    (spawnBacterium s d).bacteria.length = s.bacteria.length + 1 := by
  simp [spawnBacterium]

lemma spawnBacteriumNearExisting_length (s : GameState) (d : BactSpawnRand) :
    (spawnBacteriumNearExisting s d).bacteria.length = s.bacteria.length + 1 := by
  rw [spawnBacteriumNearExisting]
  split
  · exact spawnBacterium_length s d
  · simp

lemma foldl_id {α β : Type} (l : List β) (f : α → β → α) (s : α)
    (h : ∀ a b, f a b = a) : l.foldl f s = s := by
  induction l generalizing s with
  | nil => rfl
  | cons x xs ih => rw [List.foldl_cons, h]; exact ih s

lemma foldl_spawn_count (cU : ℕ → ℝ) (c : ℝ) (spD : ℕ → BactSpawnRand) (n : ℕ)
    (hn : n < 110) : ∀ (l : List ℕ) (st : GameState),
    (l.foldl (fun st i =>
        if cU i < c ∧ n < 110 then spawnBacteriumNearExisting st (spD i) else st) st).bacteria.length
      = st.bacteria.length + (l.filter (fun k => decide (cU k < c))).length := by
  intro l
  induction l with
  | nil => intro st; simp
  | cons i l ih =>
    intro st
    rw [List.foldl_cons, List.filter_cons]
    by_cases hci : cU i < c
    · rw [if_pos ⟨hci, hn⟩, ih, spawnBacteriumNearExisting_length]
      simp only [hci, decide_True, if_true, List.length_cons]
      omega
    · rw [if_neg (fun hand => hci hand.1), ih]
      simp [hci]

/-- **C7.**  A reproduction-timer fire (skipped while game over or during
the tutorial) with `n` the active bacterium count read at its start makes
`2 + floor(timeRamp + popRamp)` spawn attempts, each succeeding exactly
when its uniform draw is below the clamped chance and `n < 110`; a fire
starting with `n ≥ 110` creates no bacterium and leaves the state
unchanged. -/
theorem reproStep_contract (s : GameState) (cU : ℕ → ℝ) (spD : ℕ → BactSpawnRand)
    (hgo : s.gameOver = false) (htut : s.tutorialActive = false) :
    (countActive s < 110 →
      (reproStep s cU spD).bacteria.length
        = s.bacteria.length
          + ((List.range (2 + (⌊clampR (s.elapsedSeconds / 40) 0 2.2
                + clampR ((countActive s : ℝ) / 22) 0 2.0⌋).toNat)).filter
              (fun k => decide (cU k < clampR
                (0.30 + 0.16 * clampR (s.elapsedSeconds / 40) 0 2.2
                  + 0.14 * clampR ((countActive s : ℝ) / 22) 0 2.0) 0.30 0.92))).length) ∧
    (110 ≤ countActive s → reproStep s cU spD = s) := by
  have hcond : ¬ (s.gameOver = true ∨ s.tutorialActive = true) := by
    simp [hgo, htut]
  constructor
  · intro hn
    rw [reproStep, if_neg hcond]
    exact foldl_spawn_count cU _ spD (countActive s) hn _ s
  · intro hn
    rw [reproStep, if_neg hcond]
    exact foldl_id _ _ _ (fun a b => if_neg (fun hand => absurd hand.2 (by omega)))

/-- Witness for C7: a state whose 110 bacteria are all active is unchanged
by a reproduction fire. -/
theorem reproStep_contract_witness :
    110 ≤ countActive { baseState with bacteria := List.replicate 110 (bactAt (480, 270)) } ∧
    reproStep { baseState with bacteria := List.replicate 110 (bactAt (480, 270)) }
        (fun _ => 0) (fun _ => ⟨0, 0, 0, 0, 0, 0, 0, 0⟩)
      = { baseState with bacteria := List.replicate 110 (bactAt (480, 270)) } := by
  have hc : countActive { baseState with bacteria := List.replicate 110 (bactAt (480, 270)) }
      = 110 := by
    unfold countActive
    dsimp only
    exact filter_length_replicate_true _ _ rfl 110
  exact ⟨le_of_eq hc.symm,
    (reproStep_contract _ _ _ rfl rfl).2 (le_of_eq hc.symm)⟩

/-! ## Scan characterizations -/

lemma helperScanAux_spec (x y : ℝ) (P : ℕ → Bacterium → ℝ → Prop) :
    ∀ (bs : List Bacterium) (i : ℕ) (acc : Option (ℕ × Bacterium) × ℝ),
      (∀ j b, acc.1 = some (j, b) → P j b acc.2) →
      (∀ k b, bs[k]? = some b → b.active = true → b.infected = false →
        P (i + k) b (distSquared x y b.pos.1 b.pos.2)) →
      ∀ j b, (helperScanAux x y bs i acc).1 = some (j, b) →
        P j b (helperScanAux x y bs i acc).2 := by
  intro bs
  induction bs with
  | nil =>
    intro i acc hacc _ j b hres
    exact hacc j b hres
  | cons b0 rest ih =>
    intro i acc hacc helts j b hres
    have hstep : helperScanAux x y (b0 :: rest) i acc
        = helperScanAux x y rest (i + 1)
            (if b0.active = true ∧ b0.infected = false then
               (if distSquared x y b0.pos.1 b0.pos.2 < acc.2 then
                 (some (i, b0), distSquared x y b0.pos.1 b0.pos.2)
               else acc)
             else acc) := rfl
    rw [hstep] at hres ⊢
    refine ih (i + 1) _ ?_ ?_ j b hres
    · intro j' b' hj'
      by_cases h1 : b0.active = true ∧ b0.infected = false
      · rw [if_pos h1] at hj' ⊢
        by_cases h2 : distSquared x y b0.pos.1 b0.pos.2 < acc.2
        · rw [if_pos h2] at hj' ⊢
          simp only [Option.some.injEq, Prod.mk.injEq] at hj'
          rcases hj' with ⟨hj1, hj2⟩
          subst hj1
          subst hj2
          have := helts 0 b0 (by simp) h1.1 h1.2
          simpa using this
        · rw [if_neg h2] at hj' ⊢
          exact hacc j' b' hj'
      · rw [if_neg h1] at hj' ⊢
        exact hacc j' b' hj'
    · intro k b' hk ha hi
      have := helts (k + 1) b' (by simpa using hk) ha hi
      have harith : i + (k + 1) = i + 1 + k := by omega
      rwa [harith] at this

lemma helperScan_some {x y : ℝ} {bs : List Bacterium} {ti : ℕ} {tb : Bacterium}
    (h : (helperScan x y bs).1 = some (ti, tb)) :
    bs[ti]? = some tb ∧ tb.active = true ∧ tb.infected = false ∧
    (helperScan x y bs).2 = distSquared x y tb.pos.1 tb.pos.2 := by
  refine helperScanAux_spec x y
    (fun j b d => bs[j]? = some b ∧ b.active = true ∧ b.infected = false ∧
      d = distSquared x y b.pos.1 b.pos.2)
    bs 0 (none, 999999) ?_ ?_ ti tb h
  · intro j b hj
    simp at hj
  · intro k b hk ha hi
    simpa using ⟨hk, ha, hi⟩

/-- Invariant carried by the `tryAttachAt` scan: what the accumulator means
after consuming the first `i` elements of the full list. -/
def ScanInv (x y : ℝ) (full : List Bacterium) (i : ℕ)
    (acc : Option (ℕ × Bacterium × ℝ)) : Prop :=
  (acc = none → ∀ j bj, j < i → full[j]? = some bj → bj.active = false) ∧
  (∀ ti tb d, acc = some (ti, tb, d) → ti < i ∧ full[ti]? = some tb ∧ tb.active = true ∧
    d = distSquared x y tb.pos.1 tb.pos.2 ∧
    (∀ j bj, j < i → full[j]? = some bj → bj.active = true →
      d ≤ distSquared x y bj.pos.1 bj.pos.2 ∧
      (j < ti → d < distSquared x y bj.pos.1 bj.pos.2)))

lemma tryScanAux_spec (x y : ℝ) (full : List Bacterium) :
    ∀ (bs : List Bacterium) (i : ℕ) (acc : Option (ℕ × Bacterium × ℝ)),
      (∀ k, bs[k]? = full[i + k]?) →
      ScanInv x y full i acc →
      ScanInv x y full (i + bs.length) (tryScanAux x y bs i acc) := by
  intro bs
  induction bs with
  | nil =>
    intro i acc _ hinv
    simpa using hinv
  | cons b0 rest ih =>
    intro i acc hsuf hinv
    have hfull0 : full[i]? = some b0 := by
      have := hsuf 0
      simpa using this.symm
    have hsuf' : ∀ k, rest[k]? = full[i + 1 + k]? := by
      intro k
      have := hsuf (k + 1)
      simpa [Nat.add_assoc, Nat.add_comm 1 k] using this
    have hlen : i + (b0 :: rest).length = (i + 1) + rest.length := by
      simp [List.length_cons]
      omega
    rw [hlen]
    simp only [tryScanAux]
    refine ih (i + 1) _ hsuf' ?_
    rcases hinv with ⟨hnone, hsome⟩
    by_cases hact : b0.active = false
    · rw [if_pos hact]
      constructor
      · intro hn j bj hj hjget
        rcases Nat.lt_succ_iff_lt_or_eq.mp hj with hj' | hj'
        · exact hnone hn j bj hj' hjget
        · subst hj'
          rw [hfull0] at hjget
          cases hjget
          exact hact
      · intro ti tb d hacc
        obtain ⟨hti, hget, hactv, hd, hmin⟩ := hsome ti tb d hacc
        refine ⟨Nat.lt_succ_of_lt hti, hget, hactv, hd, ?_⟩
        intro j bj hj hjget hjact
        rcases Nat.lt_succ_iff_lt_or_eq.mp hj with hj' | hj'
        · exact hmin j bj hj' hjget hjact
        · subst hj'
          rw [hfull0] at hjget
          cases hjget
          rw [hact] at hjact
          cases hjact
    · rw [if_neg hact]
      have hactv0 : b0.active = true := by
        cases hb : b0.active
        · exact absurd hb hact
        · rfl
      rcases acc with _ | ⟨t, c, bd⟩
      · -- accumulator was none: take b0
        dsimp only
        constructor
        · intro hn
          simp at hn
        · intro ti tb d hacc'
          simp only [Option.some.injEq, Prod.mk.injEq] at hacc'
          obtain ⟨h1, h2, h3⟩ := hacc'
          subst h1
          subst h2
          subst h3
          refine ⟨Nat.lt_succ_self i, hfull0, hactv0, rfl, ?_⟩
          intro j bj hj hjget hjact
          rcases Nat.lt_succ_iff_lt_or_eq.mp hj with hj' | hj'
          · have := hnone rfl j bj hj' hjget
            rw [this] at hjact
            cases hjact
          · subst hj'
            rw [hfull0] at hjget
            cases hjget
            exact ⟨le_refl _, fun hji => absurd hji (lt_irrefl _)⟩
      · dsimp only
        obtain ⟨ht, hget, hactv, hd, hmin⟩ := hsome t c bd rfl
        by_cases hlt : distSquared x y b0.pos.1 b0.pos.2 < bd
        · rw [if_pos hlt]
          constructor
          · intro hn
            simp at hn
          · intro ti tb d hacc'
            simp only [Option.some.injEq, Prod.mk.injEq] at hacc'
            obtain ⟨h1, h2, h3⟩ := hacc'
            subst h1
            subst h2
            subst h3
            refine ⟨Nat.lt_succ_self i, hfull0, hactv0, rfl, ?_⟩
            intro j bj hj hjget hjact
            rcases Nat.lt_succ_iff_lt_or_eq.mp hj with hj' | hj'
            · have hold := (hmin j bj hj' hjget hjact).1
              exact ⟨le_of_lt (lt_of_lt_of_le hlt hold),
                fun _ => lt_of_lt_of_le hlt hold⟩
            · subst hj'
              rw [hfull0] at hjget
              cases hjget
              exact ⟨le_refl _, fun hji => absurd hji (lt_irrefl _)⟩
        · rw [if_neg hlt]
          constructor
          · intro hn
            simp at hn
          · intro ti tb d hacc'
            simp only [Option.some.injEq, Prod.mk.injEq] at hacc'
            obtain ⟨h1, h2, h3⟩ := hacc'
            subst h1
            subst h2
            subst h3
            refine ⟨Nat.lt_succ_of_lt ht, hget, hactv, hd, ?_⟩
            intro j bj hj hjget hjact
            rcases Nat.lt_succ_iff_lt_or_eq.mp hj with hj' | hj'
            · exact hmin j bj hj' hjget hjact
            · subst hj'
              rw [hfull0] at hjget
              cases hjget
              refine ⟨le_of_not_lt hlt, ?_⟩
              intro hji
              exact absurd (lt_trans hji ht) (lt_irrefl _)

lemma tryScan_none {x y : ℝ} {bs : List Bacterium} (h : tryScan x y bs = none) :
    ∀ (j : ℕ) (bj : Bacterium), bs[j]? = some bj → bj.active = false := by
  have hinv0 : ScanInv x y bs 0 none := by
    constructor
    · intro _ j bj hj _
      omega
    · intro ti tb d hacc
      cases hacc
  have hspec := tryScanAux_spec x y bs bs 0 none (fun k => by simp) hinv0
  intro j bj hj
  have hjlt : j < bs.length := (List.getElem?_eq_some.mp hj).1
  rw [tryScan] at h
  exact hspec.1 h j bj (by simpa using hjlt) hj

lemma tryScan_some {x y : ℝ} {bs : List Bacterium} {ti : ℕ} {tb : Bacterium} {d : ℝ}
    (h : tryScan x y bs = some (ti, tb, d)) :
    bs[ti]? = some tb ∧ tb.active = true ∧ d = distSquared x y tb.pos.1 tb.pos.2 ∧
    (∀ (j : ℕ) (bj : Bacterium), bs[j]? = some bj → bj.active = true →
      d ≤ distSquared x y bj.pos.1 bj.pos.2 ∧
      (j < ti → d < distSquared x y bj.pos.1 bj.pos.2)) := by
  have hinv0 : ScanInv x y bs 0 none := by
    constructor
    · intro _ j bj hj _
      omega
    · intro ti' tb' d' hacc
      cases hacc
  have hspec := tryScanAux_spec x y bs bs 0 none (fun k => by simp) hinv0
  rw [tryScan] at h
  obtain ⟨_, hget, hactv, hd, hmin⟩ := hspec.2 ti tb d h
  refine ⟨hget, hactv, hd, ?_⟩
  intro j bj hj hjact
  have hjlt : j < bs.length := (List.getElem?_eq_some.mp hj).1
  exact hmin j bj (by simpa using hjlt) hj hjact

/-- **C4.**  A pick-point event at `(x, y)` starts an injection iff no
injection is active, some active bacterium exists (the scan returns a
candidate), and the player's distance to the nearest active bacterium to
the pick point — nearest by strictly smaller squared distance, first in
iteration order winning ties — is at most `attachRange`.  On start the
target's infected flag is set, the start time recorded and the duration
computed; in every other case the state is unchanged. -/
theorem tryAttachAt_contract (s : GameState) (x y now : ℝ) :
    (s.injecting = true → tryAttachAt s x y now = s) ∧
    (tryScan x y s.bacteria = none →
      tryAttachAt s x y now = s ∧
      ∀ (j : ℕ) (bj : Bacterium), s.bacteria[j]? = some bj → bj.active = false) ∧
    (∀ (ti : ℕ) (b : Bacterium) (d : ℝ), tryScan x y s.bacteria = some (ti, b, d) →
      s.bacteria[ti]? = some b ∧ b.active = true ∧
      d = distSquared x y b.pos.1 b.pos.2 ∧
      (∀ (j : ℕ) (bj : Bacterium), s.bacteria[j]? = some bj → bj.active = true →
        d ≤ distSquared x y bj.pos.1 bj.pos.2 ∧
        (j < ti → d < distSquared x y bj.pos.1 bj.pos.2)) ∧
      (s.injecting = false →
        (attachRange < distBetween s.playerPos.1 s.playerPos.2 b.pos.1 b.pos.2 →
          tryAttachAt s x y now = s) ∧
        (distBetween s.playerPos.1 s.playerPos.2 b.pos.1 b.pos.2 ≤ attachRange →
          tryAttachAt s x y now =
            { s with attachedTarget := some ti,
                     injecting := true,
                     injectDuration := baseInjectDuration + min 900 ((countActive s : ℝ) * 18),
                     injectStartTime := now,
                     bacteria := s.bacteria.set ti { b with infected := true } }))) := by
  refine ⟨?_, ?_, ?_⟩
  · intro h
    simp [tryAttachAt, h]
  · intro h
    constructor
    · by_cases hinj : s.injecting = true
      · simp [tryAttachAt, hinj]
      · simp only [Bool.not_eq_true] at hinj
        simp [tryAttachAt, hinj, h]
    · exact tryScan_none h
  · intro ti b d hscan
    obtain ⟨hget, hactv, hd, hmin⟩ := tryScan_some hscan
    refine ⟨hget, hactv, hd, hmin, ?_⟩
    intro hninj
    constructor
    · intro hfar
      simp [tryAttachAt, hninj, hscan, hfar]
    · intro hnear
      have hnlt : ¬ attachRange < distBetween s.playerPos.1 s.playerPos.2 b.pos.1 b.pos.2 :=
        not_lt.mpr hnear
      rw [tryAttachAt]
      simp only [hninj, Bool.false_eq_true, if_false, hscan]
      rw [if_neg hnlt]
      exact startInjecting_some now hget hactv

/-- Witness for C4: with the player and a single active bacterium both at
the dish center, a pick at the center starts the injection. -/
theorem tryAttachAt_contract_witness :
    (tryAttachAt { baseState with bacteria := [bactAt (480, 270)] } 480 270 5).injecting
        = true ∧
    (tryAttachAt { baseState with bacteria := [bactAt (480, 270)] } 480 270 5).attachedTarget
        = some 0 := by
  have hd2 : distSquared 480 270 (bactAt (480, 270)).pos.1 (bactAt (480, 270)).pos.2 = 0 := by
    simp [distSquared, bactAt]
  have hscan : tryScan 480 270 [bactAt (480, 270)] = some (0, bactAt (480, 270), 0) := by
    rw [tryScan, tryScanAux]
    rw [if_neg (show ¬ (bactAt (480, 270)).active = false by simp [bactAt])]
    rw [tryScanAux]
    rw [hd2]
  have h := (tryAttachAt_contract { baseState with bacteria := [bactAt (480, 270)] }
    480 270 5).2.2 0 (bactAt (480, 270)) 0 hscan
  have hpp : ({ baseState with bacteria := [bactAt (480, 270)] } : GameState).playerPos
      = ((480 : ℝ), (270 : ℝ)) := by
    norm_num [baseState, dishCenter, Wconf, Hconf]
  have hnear : distBetween
      ({ baseState with bacteria := [bactAt (480, 270)] } : GameState).playerPos.1
      ({ baseState with bacteria := [bactAt (480, 270)] } : GameState).playerPos.2
      (bactAt (480, 270)).pos.1 (bactAt (480, 270)).pos.2 ≤ attachRange := by
    rw [hpp]
    dsimp only
    rw [distBetween, hd2, Real.sqrt_zero, attachRange]
    norm_num
  have heq := (h.2.2.2.2 rfl).2 hnear
  rw [heq]
  exact ⟨rfl, rfl⟩

/-! ## helperBrain lemmas -/

lemma helperBrain_strike {s : GameState} {hi : ℕ} {dt : ℝ} {r : HelperRand} {h : Helper}
    {ti : ℕ} {tb : Bacterium}
    (hh : s.helpers[hi]? = some h)
    (hscan : (helperScan h.pos.1 h.pos.2 s.bacteria).1 = some (ti, tb))
    (hk : h.killer = true)
    (hcd : max 0 (h.cooldown - dt) ≤ 0)
    (hd2 : (helperScan h.pos.1 h.pos.2 s.bacteria).2 < 34 * 34)
    (hu : r.strikeU < clampR (killerLysisChancePerSec * dt) 0 1) :
    (helperBrain s hi dt r).score = s.score + 1 ∧
    (helperBrain s hi dt r).bacteria = s.bacteria.set ti { tb with active := false } ∧
    ∃ h2 : Helper, (helperBrain s hi dt r).helpers[hi]? = some h2 ∧
      h2.cooldown = 1.5 ∧ h2.vel = vscale 220 (vnormalize (vsub h.pos tb.pos)) := by
  obtain ⟨hget, hactv, -, -⟩ := helperScan_some hscan
  rw [helperBrain]
  simp only [hh, hscan]
  rw [if_pos ⟨hk, hcd, hd2⟩, if_pos hu]
  have h1 : hi < s.helpers.length := (List.getElem?_eq_some.mp hh).1
  have hlen2 := @lysis_active_helpers_length s ti r.sp1 r.sp2 tb hget hactv
  refine ⟨lysis_active_score hget hactv, lysis_active_bacteria hget hactv,
    _, List.getElem?_set_eq_of_lt _ (by omega), rfl, rfl⟩

lemma helperBrain_nostrike {s : GameState} {hi : ℕ} {dt : ℝ} {r : HelperRand} {h : Helper}
    (hh : s.helpers[hi]? = some h)
    (hns : ((helperScan h.pos.1 h.pos.2 s.bacteria).1 = none) ∨
           ¬(h.killer = true ∧ max 0 (h.cooldown - dt) ≤ 0 ∧
             (helperScan h.pos.1 h.pos.2 s.bacteria).2 < 34 * 34) ∨
           ¬(r.strikeU < clampR (killerLysisChancePerSec * dt) 0 1)) :
    (helperBrain s hi dt r).bacteria = s.bacteria ∧
    (helperBrain s hi dt r).score = s.score ∧
    ∃ h' : Helper, (helperBrain s hi dt r).helpers[hi]? = some h' ∧
      h'.cooldown = max 0 (h.cooldown - dt) := by
  have hilt : hi < s.helpers.length := (List.getElem?_eq_some.mp hh).1
  rcases hscan : (helperScan h.pos.1 h.pos.2 s.bacteria).1 with _ | ⟨ti, tb⟩
  · refine ⟨?_, ?_, ?_⟩
    · rw [helperBrain]
      simp only [hh, hscan]
    · rw [helperBrain]
      simp only [hh, hscan]
    · rw [helperBrain]
      simp only [hh, hscan]
      exact ⟨_, List.getElem?_set_eq_of_lt _ (by simpa using hilt), rfl⟩
  · rcases hns with hn | hcond | hdraw
    · rw [hscan] at hn
      cases hn
    · refine ⟨?_, ?_, ?_⟩
      · rw [helperBrain]
        simp only [hh, hscan]
        rw [if_neg hcond]
      · rw [helperBrain]
        simp only [hh, hscan]
        rw [if_neg hcond]
      · rw [helperBrain]
        simp only [hh, hscan]
        rw [if_neg hcond]
        refine ⟨_, List.getElem?_set_eq_of_lt _ (by simpa using hilt), ?_⟩
        split <;> rfl
    · by_cases hc : h.killer = true ∧ max 0 (h.cooldown - dt) ≤ 0 ∧
          (helperScan h.pos.1 h.pos.2 s.bacteria).2 < 34 * 34
      · refine ⟨?_, ?_, ?_⟩
        · rw [helperBrain]
          simp only [hh, hscan]
          rw [if_pos hc, if_neg hdraw]
        · rw [helperBrain]
          simp only [hh, hscan]
          rw [if_pos hc, if_neg hdraw]
        · rw [helperBrain]
          simp only [hh, hscan]
          rw [if_pos hc, if_neg hdraw]
          refine ⟨_, List.getElem?_set_eq_of_lt _ (by simpa using hilt), ?_⟩
          split <;> rfl
      · refine ⟨?_, ?_, ?_⟩
        · rw [helperBrain]
          simp only [hh, hscan]
          rw [if_neg hc]
        · rw [helperBrain]
          simp only [hh, hscan]
          rw [if_neg hc]
        · rw [helperBrain]
          simp only [hh, hscan]
          rw [if_neg hc]
          refine ⟨_, List.getElem?_set_eq_of_lt _ (by simpa using hilt), ?_⟩
          split <;> rfl

lemma helperBrain_none {s : GameState} {hi : ℕ} {dt : ℝ} {r : HelperRand}
    (hh : s.helpers[hi]? = none) : helperBrain s hi dt r = s := by
  rw [helperBrain]
  simp only [hh]

lemma helperBrain_infected_preserved {s : GameState} {hi : ℕ} {dt : ℝ} {r : HelperRand}
    {j : ℕ} {bj : Bacterium}
    (hj : s.bacteria[j]? = some bj) (hinf : bj.infected = true) :
    (helperBrain s hi dt r).bacteria[j]? = some bj := by
  rcases hhel : s.helpers[hi]? with _ | h
  · rw [helperBrain_none hhel]
    exact hj
  · rcases hscan : (helperScan h.pos.1 h.pos.2 s.bacteria).1 with _ | ⟨ti, tb⟩
    · rw [(helperBrain_nostrike hhel (Or.inl hscan)).1]
      exact hj
    · by_cases hc : h.killer = true ∧ max 0 (h.cooldown - dt) ≤ 0 ∧
        (helperScan h.pos.1 h.pos.2 s.bacteria).2 < 34 * 34
      · by_cases hu : r.strikeU < clampR (killerLysisChancePerSec * dt) 0 1
        · obtain ⟨-, hbac, -⟩ := helperBrain_strike hhel hscan hc.1 hc.2.1 hc.2.2 hu
          rw [hbac]
          obtain ⟨hget, -, hninf, -⟩ := helperScan_some hscan
          have hne : ti ≠ j := by
            intro he
            subst he
            rw [hget] at hj
            cases hj
            rw [hinf] at hninf
            cases hninf
          rw [List.getElem?_set_ne hne]
          exact hj
        · rw [(helperBrain_nostrike hhel (Or.inr (Or.inr hu))).1]
          exact hj
      · rw [(helperBrain_nostrike hhel (Or.inr (Or.inl hc))).1]
        exact hj

lemma vlen2_pos_of_ne {v : V2} (h : v ≠ ((0 : ℝ), (0 : ℝ))) : 0 < vlen2 v := by
  rcases lt_or_eq_of_le (vlen2_nonneg v) with h1 | h1
  · exact h1
  · exfalso
    apply h
    have h2 : v.1 ^ 2 + v.2 ^ 2 = 0 := by
      rw [← vlen2]
      exact h1.symm
    have h3 : v.1 = 0 := by nlinarith [sq_nonneg v.1, sq_nonneg v.2]
    have h4 : v.2 = 0 := by nlinarith [sq_nonneg v.1, sq_nonneg v.2]
    exact Prod.ext h3 h4

lemma vsub_ne_zero_of_ne {a b : V2} (h : a ≠ b) : vsub a b ≠ ((0 : ℝ), (0 : ℝ)) := by
  intro hc
  apply h
  have h1 : a.1 - b.1 = 0 := congrArg Prod.fst hc
  have h2 : a.2 - b.2 = 0 := congrArg Prod.snd hc
  exact Prod.ext (by linarith) (by linarith)

/-- **C8 (amended).**  For every helper on every tick: its cooldown is
decremented by `dt`, floored at 0; when the helper is a striker with
(decremented) cooldown `≤ 0`, the nearest non-infected active target
exists, its squared distance is `< 34²`, and the uniform draw is below
`clamp(killerLysisChancePerSec * dt, 0, 1)`, the helper triggers lysis on
the target, its cooldown is set to `1.5` and its velocity is set to `220`
times the unit vector away from the target — magnitude 220 whenever the
helper's position differs from the target's (the zero vector if they
coincide); a helper without the killer role never triggers lysis. -/
theorem helperStrike_contract (s : GameState) (hi : ℕ) (dt : ℝ) (r : HelperRand) (h : Helper)
    (hh : s.helpers[hi]? = some h) :
    (∀ (ti : ℕ) (tb : Bacterium),
      (helperScan h.pos.1 h.pos.2 s.bacteria).1 = some (ti, tb) →
      h.killer = true → max 0 (h.cooldown - dt) ≤ 0 →
      (helperScan h.pos.1 h.pos.2 s.bacteria).2 < 34 * 34 →
      r.strikeU < clampR (killerLysisChancePerSec * dt) 0 1 →
      (helperBrain s hi dt r).score = s.score + 1 ∧
      (helperBrain s hi dt r).bacteria = s.bacteria.set ti { tb with active := false } ∧
      ∃ h2 : Helper, (helperBrain s hi dt r).helpers[hi]? = some h2 ∧
        h2.cooldown = 1.5 ∧
        h2.vel = vscale 220 (vnormalize (vsub h.pos tb.pos)) ∧
        (h.pos ≠ tb.pos → vlen h2.vel = 220)) ∧
    (((helperScan h.pos.1 h.pos.2 s.bacteria).1 = none ∨
      ¬(h.killer = true ∧ max 0 (h.cooldown - dt) ≤ 0 ∧
        (helperScan h.pos.1 h.pos.2 s.bacteria).2 < 34 * 34) ∨
      ¬(r.strikeU < clampR (killerLysisChancePerSec * dt) 0 1)) →
      (helperBrain s hi dt r).bacteria = s.bacteria ∧
      (helperBrain s hi dt r).score = s.score ∧
      ∃ h' : Helper, (helperBrain s hi dt r).helpers[hi]? = some h' ∧
        h'.cooldown = max 0 (h.cooldown - dt)) ∧
    (h.killer = false →
      (helperBrain s hi dt r).bacteria = s.bacteria ∧
      (helperBrain s hi dt r).score = s.score) := by
  refine ⟨?_, fun hns => helperBrain_nostrike hh hns, ?_⟩
  · intro ti tb hscan hk hcd hd2 hu
    obtain ⟨hscore, hbac, h2, hmem, hcool, hvel⟩ :=
      helperBrain_strike hh hscan hk hcd hd2 hu
    refine ⟨hscore, hbac, h2, hmem, hcool, hvel, ?_⟩
    intro hne
    rw [hvel, vlen_vscale,
      vlen_vnormalize (vlen2_pos_of_ne (vsub_ne_zero_of_ne hne))]
    norm_num
  · intro hk
    have hns := @helperBrain_nostrike s hi dt r h hh (Or.inr (Or.inl (fun hand => by
      rw [hk] at hand
      exact absurd hand.1 (by simp))))
    exact ⟨hns.1, hns.2.1⟩

/-- Witness for (amended) C8: a killer helper 3 units from an active
bacterium, with `dt = 1` and draw `0.2 < 0.35`, lyses it and recoils at
speed 220. -/
theorem helperStrike_contract_witness :
    (helperBrain { baseState with bacteria := [bactAt (480, 270)],
                                  helpers := [helperAt (483, 270) true] }
        0 1 ⟨0, 0.2, zeroSpawnH, zeroSpawnH⟩).score
      = 0 + 1 ∧
    (∃ h2 : Helper,
      (helperBrain { baseState with bacteria := [bactAt (480, 270)],
                                    helpers := [helperAt (483, 270) true] }
          0 1 ⟨0, 0.2, zeroSpawnH, zeroSpawnH⟩).helpers[0]? = some h2 ∧
      h2.cooldown = 1.5 ∧ vlen h2.vel = 220) := by
  have hscan : helperScan (helperAt (483, 270) true).pos.1 (helperAt (483, 270) true).pos.2
      [bactAt (480, 270)] = (some (0, bactAt (480, 270)), 9) := by
    rw [helperScan, helperScanAux, helperScanAux]
    rw [if_pos ⟨rfl, rfl⟩]
    norm_num [distSquared, bactAt, helperAt]
  have hC := helperStrike_contract
    { baseState with bacteria := [bactAt (480, 270)], helpers := [helperAt (483, 270) true] }
    0 1 ⟨0, 0.2, zeroSpawnH, zeroSpawnH⟩ (helperAt (483, 270) true) rfl
  have hres := hC.1 0 (bactAt (480, 270))
    (by dsimp only; rw [hscan]) rfl (by norm_num [helperAt])
    (by dsimp only; rw [hscan]; norm_num)
    (by norm_num [clampR, killerLysisChancePerSec])
  obtain ⟨hscore, -, h2, hmem, hcool, -, hlen⟩ := hres
  refine ⟨hscore, h2, hmem, hcool, hlen ?_⟩
  intro hc
  have := congrArg Prod.fst hc
  norm_num [helperAt, bactAt] at this

/-- Counterexample to C8 as stated: when a striker occupies exactly its
target's position, the strike fires (score increments) but the recoil
velocity is the zero vector — magnitude 0, not 220 (Phaser's `normalize`
leaves the zero vector unchanged). -/
theorem helperStrike_velocity_counterexample :
    (helperBrain { baseState with bacteria := [bactAt (480, 270)],
                                  helpers := [helperAt (480, 270) true] }
        0 1 ⟨0, 0.2, zeroSpawnH, zeroSpawnH⟩).score
      = 0 + 1 ∧
    ((helperBrain { baseState with bacteria := [bactAt (480, 270)],
                                   helpers := [helperAt (480, 270) true] }
        0 1 ⟨0, 0.2, zeroSpawnH, zeroSpawnH⟩).helpers[0]?).map Helper.vel
      = some ((0 : ℝ), (0 : ℝ)) ∧
    vlen ((0 : ℝ), (0 : ℝ)) ≠ 220 := by
  have hscan : helperScan (helperAt (480, 270) true).pos.1 (helperAt (480, 270) true).pos.2
      [bactAt (480, 270)] = (some (0, bactAt (480, 270)), 0) := by
    rw [helperScan, helperScanAux, helperScanAux]
    rw [if_pos ⟨rfl, rfl⟩]
    norm_num [distSquared, bactAt, helperAt]
  have hmembase : ({ baseState with bacteria := [bactAt (480, 270)],
                                    helpers := [helperAt (480, 270) true] } :
      GameState).helpers[0]? = some (helperAt (480, 270) true) := rfl
  obtain ⟨hscore, -, h2, hmem, -, hvel⟩ :=
    @helperBrain_strike
      { baseState with bacteria := [bactAt (480, 270)],
                       helpers := [helperAt (480, 270) true] }
      0 1 ⟨0, 0.2, zeroSpawnH, zeroSpawnH⟩ (helperAt (480, 270) true) 0 (bactAt (480, 270))
      hmembase (by dsimp only; rw [hscan]) rfl (by norm_num [helperAt])
      (by dsimp only; rw [hscan]; norm_num)
      (by norm_num [clampR, killerLysisChancePerSec])
  have hv0 : h2.vel = ((0 : ℝ), (0 : ℝ)) := by
    rw [hvel]
    have hsub : vsub (helperAt (480, 270) true).pos (bactAt (480, 270)).pos
        = ((0 : ℝ), (0 : ℝ)) := by
      norm_num [vsub, helperAt, bactAt]
    rw [hsub, vnormalize, if_neg (by norm_num [vlen2])]
    norm_num [vscale]
  refine ⟨hscore, ?_, ?_⟩
  · rw [hmem, Option.map_some', hv0]
  · rw [vlen, vlen2]
    norm_num [Real.sqrt_eq_zero']

/-- **C10.**  The helper target scan skips every bacterium whose infected
flag is set, so helper action never touches an infected bacterium's entry —
in particular a striker never lyses it; since `startInjecting` marks its
target infected, an in-progress injection's target can only be deactivated
externally, never by a helper. -/
theorem helper_never_lyses_infected (s : GameState) (hi : ℕ) (dt : ℝ) (r : HelperRand) :
    (∀ (x y : ℝ) (ti : ℕ) (tb : Bacterium),
      (helperScan x y s.bacteria).1 = some (ti, tb) →
      s.bacteria[ti]? = some tb ∧ tb.infected = false) ∧
    (∀ (j : ℕ) (bj : Bacterium), s.bacteria[j]? = some bj → bj.infected = true →
      (helperBrain s hi dt r).bacteria[j]? = some bj) ∧
    (∀ (ti : ℕ) (now : ℝ) (b : Bacterium), s.bacteria[ti]? = some b → b.active = true →
      (startInjecting s ti now).bacteria[ti]? = some { b with infected := true }) := by
  refine ⟨?_, fun j bj hj hinf => helperBrain_infected_preserved hj hinf, ?_⟩
  · intro x y ti tb hscan
    obtain ⟨hget, -, hninf, -⟩ := helperScan_some hscan
    exact ⟨hget, hninf⟩
  · intro ti now b h hb
    rw [startInjecting_some now h hb]
    exact List.getElem?_set_eq_of_lt _ (List.getElem?_eq_some.mp h).1

/-- Witness for C10: a killer helper standing on an infected bacterium
leaves its entry untouched for a whole `helperBrain` step. -/
theorem helper_never_lyses_infected_witness :
    ({ bactAt (480, 270) with infected := true } : Bacterium).infected = true ∧
    (helperBrain { baseState with
        bacteria := [{ bactAt (480, 270) with infected := true }],
        helpers := [helperAt (480, 270) true] } 0 1
        ⟨0, 0.2, zeroSpawnH, zeroSpawnH⟩).bacteria[0]?
      = some { bactAt (480, 270) with infected := true } := by
  refine ⟨rfl, ?_⟩
  exact (helper_never_lyses_infected
    { baseState with bacteria := [{ bactAt (480, 270) with infected := true }],
                     helpers := [helperAt (480, 270) true] }
    0 1 ⟨0, 0.2, zeroSpawnH, zeroSpawnH⟩).2.1 0
    { bactAt (480, 270) with infected := true } rfl rfl

/-! ## Spawn-position lemmas (claim C9) -/

lemma randomPointInDish_dist {tU uA uB : ℝ} (radius : ℝ) (hr : 0 ≤ radius)
    (hA1 : 0 ≤ uA) (hA2 : uA < 1) (hB1 : 0 ≤ uB) (hB2 : uB < 1) :
    distToCenter (randomPointInDish dishCenter radius tU uA uB) ≤ radius := by
  rw [randomPointInDish]
  set t := tU * Real.pi * 2 with ht
  set r := if 1 < uA + uB then 2 - (uA + uB) else uA + uB with hrdef
  have hr0 : 0 ≤ r := by
    rw [hrdef]
    split <;> linarith
  have hr1 : r ≤ 1 := by
    rw [hrdef]
    split <;> linarith
  rw [distToCenter, distBetween, distSquared]
  dsimp only
  have hsq : (dishCenter.1 + Real.cos t * r * radius - dishCenter.1) ^ 2
      + (dishCenter.2 + Real.sin t * r * radius - dishCenter.2) ^ 2 = (r * radius) ^ 2 := by
    have htrig := Real.sin_sq_add_cos_sq t
    nlinarith [htrig]
  rw [hsq, Real.sqrt_sq (mul_nonneg hr0 hr)]
  calc r * radius ≤ 1 * radius := by
        apply mul_le_mul_of_nonneg_right hr1 hr
    _ = radius := one_mul radius

lemma clampToDishPoint_dist (radius : ℝ) (hr : 0 ≤ radius) (p : V2) :
    distToCenter (clampToDishPoint dishCenter radius p) ≤ radius := by
  rw [clampToDishPoint]
  split
  · rw [distToCenter_eq_vlen]
    assumption
  · rename_i hgt
    have hlt : radius < vlen (vsub p dishCenter) := lt_of_not_le hgt
    have hpos : 0 < vlen (vsub p dishCenter) := lt_of_le_of_lt hr hlt
    have hl2 : 0 < vlen2 (vsub p dishCenter) := vlen2_pos_of_vlen_pos hpos
    rw [distToCenter_eq_vlen, vsub_vadd_cancel, vsetLength_eq radius hl2, vlen_vscale]
    rw [abs_of_nonneg (div_nonneg hr (le_of_lt hpos)), div_mul_cancel₀]
    exact ne_of_gt hpos

/-- **C9 (amended).**  Every seeded bacterium and every reproduced
bacterium is placed within `dishRadius * 0.92` of the dish center; a helper
spawned on lysis is placed at an unclamped random offset of at most 30
units from the lysed bacterium's last position (`spawnHelperPhageNear`
applies no dish clamp, so the helper may start outside `dishRadius *
0.92`). -/
theorem spawn_inside_dish (st : GameState) (d : BactSpawnRand)
    (hA1 : 0 ≤ d.uA) (hA2 : d.uA < 1) (hB1 : 0 ≤ d.uB) (hB2 : d.uB < 1) :
    (∀ nb : Bacterium, (spawnBacterium st d).bacteria[st.bacteria.length]? = some nb →
      distToCenter nb.pos ≤ dishRadius * 0.92) ∧
    (∀ nb : Bacterium,
      (spawnBacteriumNearExisting st d).bacteria[st.bacteria.length]? = some nb →
      distToCenter nb.pos ≤ dishRadius * 0.92) ∧
    (∀ (x y : ℝ) (dh : SpawnHRand), 0 ≤ dh.rU → dh.rU ≤ 1 →
      ∀ nh : Helper, (spawnHelperPhageNear st x y dh).helpers[st.helpers.length]? = some nh →
      distBetween nh.pos.1 nh.pos.2 x y ≤ 30) := by
  have hr92 : (0 : ℝ) ≤ dishRadius * 0.92 := by
    rw [dishRadius_val]
    norm_num
  refine ⟨?_, ?_, ?_⟩
  · intro nb hmem
    rw [spawnBacterium] at hmem
    simp only [List.getElem?_concat_length, Option.some.injEq] at hmem
    subst hmem
    exact randomPointInDish_dist _ hr92 hA1 hA2 hB1 hB2
  · intro nb hmem
    rw [spawnBacteriumNearExisting] at hmem
    split at hmem
    · rw [spawnBacterium] at hmem
      simp only [List.getElem?_concat_length, Option.some.injEq] at hmem
      subst hmem
      exact randomPointInDish_dist _ hr92 hA1 hA2 hB1 hB2
    · simp only [List.getElem?_concat_length, Option.some.injEq] at hmem
      subst hmem
      exact clampToDishPoint_dist _ hr92 _
  · intro x y dh hu0 hu1 nh hmem
    rw [spawnHelperPhageNear] at hmem
    simp only [List.getElem?_concat_length, Option.some.injEq] at hmem
    subst hmem
    dsimp only
    set a := floatBetween 0 (Real.pi * 2) dh.angleU with ha
    have hrr0 : 0 ≤ floatBetween 10 30 dh.rU := by
      rw [floatBetween]
      nlinarith
    have hrr1 : floatBetween 10 30 dh.rU ≤ 30 := by
      rw [floatBetween]
      nlinarith
    rw [distBetween, distSquared]
    have hsq : (x + Real.cos a * floatBetween 10 30 dh.rU - x) ^ 2
        + (y + Real.sin a * floatBetween 10 30 dh.rU - y) ^ 2
        = (floatBetween 10 30 dh.rU) ^ 2 := by
      have htrig := Real.sin_sq_add_cos_sq a
      nlinarith [htrig]
    rw [hsq, Real.sqrt_sq hrr0]
    exact hrr1

/-- Witness for (amended) C9: a reproduced bacterium with in-range draws
lands within `dishRadius * 0.92`. -/
theorem spawn_inside_dish_witness :
    (0 : ℝ) ≤ (⟨0, 0, 0, 0, 0, 0, 0, 0⟩ : BactSpawnRand).uA ∧
    (∀ nb : Bacterium,
      (spawnBacteriumNearExisting { baseState with bacteria := [bactAt (480, 270)] }
          ⟨0, 0, 0, 0, 0, 0, 0, 0⟩).bacteria[1]? = some nb →
      distToCenter nb.pos ≤ dishRadius * 0.92) := by
  refine ⟨le_refl 0, ?_⟩
  have h := (spawn_inside_dish { baseState with bacteria := [bactAt (480, 270)] }
    ⟨0, 0, 0, 0, 0, 0, 0, 0⟩ (le_refl 0) (by norm_num) (le_refl 0) (by norm_num)).2.1
  exact h

/-- Counterexample to C9 as stated: lysing a bacterium at `(700, 270)`
(distance 220 from the center, inside the `0.93` boundary) with offset
draws `angle = 0`, `r = 30` places the first spawned helper at
`(730, 270)`, distance 250 from the center — outside `dishRadius * 0.92 =
218.592`. -/
theorem helperSpawn_outside_counterexample :
    ((lysis { baseState with bacteria := [bactAt (700, 270)] } 0
        ⟨0, 1, 0, 0⟩ zeroSpawnH).helpers[0]?).map Helper.pos
      = some ((730 : ℝ), (270 : ℝ)) ∧
    dishRadius * 0.92 < distToCenter ((730 : ℝ), (270 : ℝ)) := by
  constructor
  · have hb : ({ baseState with bacteria := [bactAt (700, 270)] } :
        GameState).bacteria[0]? = some (bactAt (700, 270)) := rfl
    simp only [lysis, hb]
    rw [if_neg (show ¬ (bactAt ((700 : ℝ), (270 : ℝ))).active = false by simp [bactAt])]
    norm_num [spawnHelperPhageNear, helpersActive, maxHelpers, baseState, floatBetween,
      bactAt, Real.cos_zero, Real.sin_zero]
  · rw [distToCenter, distBetween, distSquared, dishCenter, Wconf, Hconf]
    dsimp only
    rw [show ((730 : ℝ) - 960 / 2) ^ 2 + (270 - 540 / 2) ^ 2 = 250 ^ 2 by norm_num]
    rw [Real.sqrt_sq (by norm_num), dishRadius_val]
    norm_num

/-! ## gameOver preservation through the tick phases (claim C3) -/

lemma stopInjecting_gameOver (s : GameState) : (stopInjecting s).gameOver = s.gameOver := rfl

lemma stopInjecting_score (s : GameState) : (stopInjecting s).score = s.score := rfl

lemma countActive_stopInjecting (s : GameState) :
    countActive (stopInjecting s) = countActive s := by
  unfold countActive stopInjecting
  dsimp only
  rcases ha : s.attachedTarget with _ | i
  · simp only [ha]
  · simp only [ha]
    rcases hg : s.bacteria[i]? with _ | b
    · simp only [hg]
    · simp only [hg]
      have hfl := filter_length_set (fun x => x.active) s.bacteria i b
        { b with infected := false } hg
      rcases hact : b.active with _ | _
      · simp [hact] at hfl
        omega
      · simp [hact] at hfl
        omega

lemma handleMovement_gameOver (s : GameState) (inp : InputState) :
    (handleMovement s inp).gameOver = s.gameOver := by
  rw [handleMovement]
  split <;> rfl

lemma playerPhase_gameOver (s : GameState) (inp : InputState) :
    (playerPhase s inp).gameOver = s.gameOver := by
  rw [playerPhase]
  exact handleMovement_gameOver s inp

lemma helperBrain_gameOver (s : GameState) (hi : ℕ) (dt : ℝ) (r : HelperRand) :
    (helperBrain s hi dt r).gameOver = s.gameOver := by
  rw [helperBrain]
  split
  · rfl
  · dsimp only
    split
    · split
      · split
        · exact lysis_gameOver _ _ _ _
        · rfl
      · rfl
    · rfl

lemma foldl_proj_eq {α β γ : Type} (f : α → β → α) (g : α → γ)
    (hf : ∀ st b, g (f st b) = g st) : ∀ (l : List β) (st : α), g (l.foldl f st) = g st := by
  intro l
  induction l with
  | nil => intro st; rfl
  | cons x xs ih =>
    intro st
    rw [List.foldl_cons, ih, hf]

lemma helpersPhase_gameOver (s : GameState) (dt : ℝ) (rng : ℕ → HelperRand) :
    (helpersPhase s dt rng).gameOver = s.gameOver := by
  rw [helpersPhase]
  apply foldl_proj_eq _ GameState.gameOver
  intro st i
  dsimp only
  split
  · rfl
  · split
    · rfl
    · split
      · exact helperBrain_gameOver _ _ _ _
      · exact helperBrain_gameOver _ _ _ _

lemma bacteriaPhase_gameOver (s : GameState) (dt : ℝ) (rng : ℕ → BactRand) :
    (bacteriaPhase s dt rng).gameOver = s.gameOver := by
  rw [bacteriaPhase]
  apply foldl_proj_eq _ GameState.gameOver
  intro st i
  dsimp only
  split
  · rfl
  · split <;> rfl

lemma injectionPhase_gameOver (s : GameState) (t : ℝ) (d1 d2 : SpawnHRand) :
    (injectionPhase s t d1 d2).gameOver = s.gameOver := by
  rw [injectionPhase]
  split
  · split
    · split
      · split
        · dsimp only
          split
          · rw [stopInjecting_gameOver]
            exact lysis_gameOver _ _ _ _
          · rfl
        · exact stopInjecting_gameOver _
      · exact stopInjecting_gameOver _
    · exact stopInjecting_gameOver _
  · rfl

lemma endGame_effects (s : GameState) (w : Bool) :
    (endGame s w).gameOver = true ∧ (endGame s w).won = some w ∧
    (endGame s w).injecting = false ∧ (endGame s w).attachedTarget = none ∧
    (endGame s w).score = s.score ∧ countActive (endGame s w) = countActive s := by
  refine ⟨rfl, ?_, rfl, rfl, rfl, ?_⟩
  · rfl
  · rw [endGame, countActive_stopInjecting]
    rfl

lemma checkEnd_score (s : GameState) : (checkEnd s).score = s.score := by
  rw [checkEnd]
  split
  · exact (endGame_effects s true).2.2.2.2.1
  · split
    · exact (endGame_effects s false).2.2.2.2.1
    · rfl

lemma checkEnd_countActive (s : GameState) : countActive (checkEnd s) = countActive s := by
  rw [checkEnd]
  split
  · exact (endGame_effects s true).2.2.2.2.2
  · split
    · exact (endGame_effects s false).2.2.2.2.2
    · rfl

lemma checkEnd_cases (s : GameState) :
    (neededToWin ≤ s.score → checkEnd s = endGame s true) ∧
    (s.score < neededToWin → loseThreshold ≤ countActive s →
      checkEnd s = endGame s false) ∧
    (s.score < neededToWin → countActive s < loseThreshold → checkEnd s = s) := by
  refine ⟨?_, ?_, ?_⟩
  · intro hw
    rw [checkEnd, if_pos hw]
  · intro hw hl
    rw [checkEnd, if_neg (not_le.mpr hw), if_pos hl]
  · intro hw hl
    rw [checkEnd, if_neg (not_le.mpr hw), if_neg (not_le.mpr hl)]

lemma updateSim_eq_checkEnd {s : GameState} (t dtMs : ℝ) (inp : InputState)
    (rngH : ℕ → HelperRand) (rngB : ℕ → BactRand) (d1 d2 : SpawnHRand)
    (htut : s.tutorialActive = false) (hgo : s.gameOver = false) :
    updateSim s t dtMs inp rngH rngB d1 d2
      = checkEnd (injectionPhase
          (bacteriaPhase
            (helpersPhase
              (playerPhase { s with elapsedSeconds := s.elapsedSeconds + dtMs / 1000 } inp)
              (dtMs / 1000) rngH)
            (dtMs / 1000) rngB)
          t d1 d2) := by
  rw [updateSim, if_neg (by simp [htut]), if_neg (by simp [hgo])]

/-- **C3.**  At the end of every tick the session controller evaluates the
thresholds: `score ≥ neededToWin` ends the session as a win, else an active
bacterium count `≥ loseThreshold` ends it as a loss (a tick satisfying both
is a win); ending sets `gameOver` and immediately cancels any in-progress
injection; and once `gameOver` holds, a tick and a reproduction-timer fire
both leave the state entirely unchanged. -/
theorem session_end_contract (s : GameState) (t dtMs : ℝ) (inp : InputState)
    (rngH : ℕ → HelperRand) (rngB : ℕ → BactRand) (d1 d2 : SpawnHRand)
    (cU : ℕ → ℝ) (spD : ℕ → BactSpawnRand) :
    (s.gameOver = true →
      updateSim s t dtMs inp rngH rngB d1 d2 = s ∧ reproStep s cU spD = s) ∧
    (s.tutorialActive = false → s.gameOver = false →
      (neededToWin ≤ (updateSim s t dtMs inp rngH rngB d1 d2).score →
        (updateSim s t dtMs inp rngH rngB d1 d2).gameOver = true ∧
        (updateSim s t dtMs inp rngH rngB d1 d2).won = some true ∧
        (updateSim s t dtMs inp rngH rngB d1 d2).injecting = false ∧
        (updateSim s t dtMs inp rngH rngB d1 d2).attachedTarget = none) ∧
      ((updateSim s t dtMs inp rngH rngB d1 d2).score < neededToWin →
        loseThreshold ≤ countActive (updateSim s t dtMs inp rngH rngB d1 d2) →
        (updateSim s t dtMs inp rngH rngB d1 d2).gameOver = true ∧
        (updateSim s t dtMs inp rngH rngB d1 d2).won = some false ∧
        (updateSim s t dtMs inp rngH rngB d1 d2).injecting = false ∧
        (updateSim s t dtMs inp rngH rngB d1 d2).attachedTarget = none) ∧
      ((updateSim s t dtMs inp rngH rngB d1 d2).score < neededToWin →
        countActive (updateSim s t dtMs inp rngH rngB d1 d2) < loseThreshold →
        (updateSim s t dtMs inp rngH rngB d1 d2).gameOver = false)) := by
  constructor
  · intro hgo
    constructor
    · rw [updateSim]
      split <;> simp [hgo]
    · rw [reproStep, if_pos (Or.inl hgo)]
  · intro htut hgo
    have hu := updateSim_eq_checkEnd t dtMs inp rngH rngB d1 d2 htut hgo
    set s5 := injectionPhase
        (bacteriaPhase
          (helpersPhase
            (playerPhase { s with elapsedSeconds := s.elapsedSeconds + dtMs / 1000 } inp)
            (dtMs / 1000) rngH)
          (dtMs / 1000) rngB)
        t d1 d2 with hs5
    have hs5go : s5.gameOver = false := by
      rw [hs5, injectionPhase_gameOver, bacteriaPhase_gameOver, helpersPhase_gameOver,
        playerPhase_gameOver]
      exact hgo
    obtain ⟨hA, hB, hC⟩ := checkEnd_cases s5
    rw [hu]
    refine ⟨?_, ?_, ?_⟩
    · intro hscore
      rw [checkEnd_score] at hscore
      rw [hA hscore]
      obtain ⟨e1, e2, e3, e4, -, -⟩ := endGame_effects s5 true
      exact ⟨e1, e2, e3, e4⟩
    · intro hscore hlose
      rw [checkEnd_score] at hscore
      rw [checkEnd_countActive] at hlose
      rw [hB hscore hlose]
      obtain ⟨e1, e2, e3, e4, -, -⟩ := endGame_effects s5 false
      exact ⟨e1, e2, e3, e4⟩
    · intro hscore hlose
      rw [checkEnd_score] at hscore
      rw [checkEnd_countActive] at hlose
      rw [hC hscore hlose]
      exact hs5go

lemma helpersPhase_nil {s : GameState} (dt : ℝ) (rng : ℕ → HelperRand)
    (h : s.helpers = []) : helpersPhase s dt rng = s := by
  rw [helpersPhase, h]
  rfl

lemma bacteriaPhase_nil {s : GameState} (dt : ℝ) (rng : ℕ → BactRand)
    (h : s.bacteria = []) : bacteriaPhase s dt rng = s := by
  rw [bacteriaPhase, h]
  rfl

lemma injectionPhase_not_injecting {s : GameState} (t : ℝ) (d1 d2 : SpawnHRand)
    (h : s.injecting = false) : injectionPhase s t d1 d2 = s := by
  rw [injectionPhase, if_neg (by simp [h])]

lemma playerPhase_discrete (s : GameState) (inp : InputState) :
    (playerPhase s inp).helpers = s.helpers ∧
    (playerPhase s inp).bacteria = s.bacteria ∧
    (playerPhase s inp).score = s.score ∧
    (playerPhase s inp).injecting = s.injecting := by
  rw [playerPhase, handleMovement]
  split <;> exact ⟨rfl, rfl, rfl, rfl⟩

/-- Witness for C3 at two concrete states: a finished session is left
untouched by a tick and by a reproduction fire, and a fresh session whose
score already reached `neededToWin = 35` ends the tick as a win. -/
theorem session_end_contract_witness :
    updateSim { baseState with gameOver := true } 0 16 ⟨false, false, false, false⟩
        (fun _ => ⟨0, 0, zeroSpawnH, zeroSpawnH⟩) (fun _ => ⟨0, 0⟩) zeroSpawnH zeroSpawnH
      = { baseState with gameOver := true } ∧
    reproStep { baseState with gameOver := true } (fun _ => 0)
        (fun _ => ⟨0, 0, 0, 0, 0, 0, 0, 0⟩)
      = { baseState with gameOver := true } ∧
    (updateSim { baseState with score := 35 } 0 16 ⟨false, false, false, false⟩
        (fun _ => ⟨0, 0, zeroSpawnH, zeroSpawnH⟩) (fun _ => ⟨0, 0⟩) zeroSpawnH
        zeroSpawnH).gameOver = true ∧
    (updateSim { baseState with score := 35 } 0 16 ⟨false, false, false, false⟩
        (fun _ => ⟨0, 0, zeroSpawnH, zeroSpawnH⟩) (fun _ => ⟨0, 0⟩) zeroSpawnH
        zeroSpawnH).won = some true := by
  have hfrozen := (session_end_contract { baseState with gameOver := true } 0 16
    ⟨false, false, false, false⟩ (fun _ => ⟨0, 0, zeroSpawnH, zeroSpawnH⟩) (fun _ => ⟨0, 0⟩)
    zeroSpawnH zeroSpawnH (fun _ => 0) (fun _ => ⟨0, 0, 0, 0, 0, 0, 0, 0⟩)).1 rfl
  -- evaluate the score of the tick result for the score-35 state
  have hu := updateSim_eq_checkEnd (s := { baseState with score := 35 }) 0 16
    ⟨false, false, false, false⟩ (fun _ => ⟨0, 0, zeroSpawnH, zeroSpawnH⟩) (fun _ => ⟨0, 0⟩)
    zeroSpawnH zeroSpawnH rfl rfl
  have hpd := playerPhase_discrete
    { { baseState with score := 35 } with
        elapsedSeconds := ({ baseState with score := 35 } : GameState).elapsedSeconds + 16 / 1000 }
    ⟨false, false, false, false⟩
  have hhp := helpersPhase_nil (16 / 1000) (fun _ => ⟨0, 0, zeroSpawnH, zeroSpawnH⟩) hpd.1
  have hscore : (updateSim { baseState with score := 35 } 0 16 ⟨false, false, false, false⟩
      (fun _ => ⟨0, 0, zeroSpawnH, zeroSpawnH⟩) (fun _ => ⟨0, 0⟩) zeroSpawnH
      zeroSpawnH).score = 35 := by
    rw [hu, checkEnd_score, hhp]
    rw [bacteriaPhase_nil _ _ hpd.2.1]
    rw [injectionPhase_not_injecting _ _ _ hpd.2.2.2]
    rw [hpd.2.2.1]
  have hwin := ((session_end_contract { baseState with score := 35 } 0 16
    ⟨false, false, false, false⟩ (fun _ => ⟨0, 0, zeroSpawnH, zeroSpawnH⟩) (fun _ => ⟨0, 0⟩)
    zeroSpawnH zeroSpawnH (fun _ => 0) (fun _ => ⟨0, 0, 0, 0, 0, 0, 0, 0⟩)).2 rfl rfl).1
    (by rw [hscore]; norm_num [neededToWin])
  exact ⟨hfrozen.1, hfrozen.2, hwin.1, hwin.2.1⟩
